import Mathlib

/-!
Verification development for the copy engine of `ddpt` (file `src/src/ddpt.c`,
version 0.93).  The definitions below are a shallow embedding of the C source:
each definition's doc comment names the C function and line range it was
translated from.  System-call results (`read`, `write`, `lseek`, the SCSI
pass-through operations) are supplied as explicit arguments, encoded the way
the source itself sees them after its EINTR-retry loops: a nonnegative byte
count, or a negative value `-errno`.  C `int`/`int64_t` quantities that are
nonnegative by construction are modelled as `Nat`; signed quantities
(`dd_count`, `skip`, `seek`, file positions, statistic counters that are
decremented) as `Int`.  All divisions in the embedding are applied to
nonnegative operands, where C truncating division and Lean division agree.
-/

namespace Ddpt

/-! ### Constants from headers that are not part of `src/`

`ddpt.c` includes `ddpt.h` and `sg_lib.h`, which are not among the
repository files provided.  The constants below are therefore modelled
from the spec: the spec's exit-code taxonomy (§6) fixes `0` as success and
distinct positive codes for syntax error, file error, medium-hard and
"other"; §4.7.10 and §9 describe `REASON_TAPE_SHORT_READ` as a leave
reason distinct from the error categories and from `0` (natural EOF).
Only distinctness and nonzero-ness of these values matter below. -/

/-- Modelled from the spec: exit code for a command-line syntax error
(`SG_LIB_SYNTAX_ERROR` of `sg_lib.h`, which is not under `src/`). -/
def SG_LIB_SYNTAX_ERROR : Nat := 1

/-- Modelled from the spec: result category for an unrecoverable medium
error (`SG_LIB_CAT_MEDIUM_HARD` of `sg_lib.h`). -/
def SG_LIB_CAT_MEDIUM_HARD : Nat := 3

/-- Modelled from the spec: result category for a local file error
(`SG_LIB_FILE_ERROR` of `sg_lib.h`). -/
def SG_LIB_FILE_ERROR : Nat := 15

/-- Modelled from the spec: the catch-all error category
(`SG_LIB_CAT_OTHER` of `sg_lib.h`). -/
def SG_LIB_CAT_OTHER : Nat := 99

/-- Modelled from the spec: the leave reason recorded for a short tape
read (`REASON_TAPE_SHORT_READ` of `ddpt.h`, not under `src/`); distinct
from `0` (natural EOF) and from every `SG_LIB_*` category. -/
def REASON_TAPE_SHORT_READ : Nat := 1024

/-- Modelled from the spec: file-type bit masks (`FT_*` of `ddpt.h`).
`dd_filetype` (ddpt.c:1227) documents them as a bit mask that later logic
combines. -/
def FT_OTHER : Nat := 1

/-- Pass-through device bit (see `FT_OTHER`). -/
def FT_PT : Nat := 2

/-- Regular file bit (see `FT_OTHER`). -/
def FT_REG : Nat := 4

/-- Dev-null ('.') output bit (see `FT_OTHER`). -/
def FT_DEV_NULL : Nat := 8

/-- Tape device bit (see `FT_OTHER`). -/
def FT_TAPE : Nat := 16

/-- Block device bit (see `FT_OTHER`). -/
def FT_BLOCK : Nat := 32

/-- Fifo (named pipe, stdin/stdout) bit (see `FT_OTHER`). -/
def FT_FIFO : Nat := 64

/-- Character device bit (see `FT_OTHER`). -/
def FT_CHAR : Nat := 128

/-- Modelled from the spec: default block size of 512 bytes
(`DEF_BLOCK_SIZE` of `ddpt.h`; the usage text of ddpt.c:207 says
"input block size (default 512 bytes)"). -/
def DEF_BLOCK_SIZE : Nat := 512

/-- Modelled from the spec: default blocks-per-transfer table values
(`DEF_BPT_LT8` .. `DEF_BPT_GE32768` of `ddpt.h`); the usage text of
ddpt.c:188 gives 128 for a 512-byte input block size, which pins the
`ibs < 1024` entry. -/
def DEF_BPT_LT8 : Nat := 8192

/-- Default bpt for `8 <= ibs < 64` (see `DEF_BPT_LT8`). -/
def DEF_BPT_LT64 : Nat := 1024

/-- Default bpt for `64 <= ibs < 1024` (see `DEF_BPT_LT8`). -/
def DEF_BPT_LT1024 : Nat := 128

/-- Default bpt for `1024 <= ibs < 8192` (see `DEF_BPT_LT8`). -/
def DEF_BPT_LT8192 : Nat := 16

/-- Default bpt for `8192 <= ibs < 31768` (see `DEF_BPT_LT8`). -/
def DEF_BPT_LT32768 : Nat := 4

/-- Default bpt for `ibs >= 31768` (see `DEF_BPT_LT8`). -/
def DEF_BPT_GE32768 : Nat := 1

/-- Linux `errno` value for an input/output error (`EIO`); system header,
value only used for distinctness. -/
def Eio : Int := 5

/-- Linux `errno` value for a remote input/output error (`EREMOTEIO`). -/
def Eremoteio : Int := 121

/-- Linux `errno` value for "no space left on device" (`ENOSPC`). -/
def Enospc : Int := 28

/-! ### The data model: `struct flags_t`, `struct opts_t`, `struct cp_state_t` -/

/-- The per-side flag set, `struct flags_t` of ddpt.h as used by ddpt.c
(`process_flags`, ddpt.c:674-764, increments each field as a counter). -/
structure FlagsT where
  append : Nat := 0
  coe : Nat := 0
  errblk : Nat := 0
  ignoreew : Nat := 0
  nofm : Nat := 0
  nopad : Nat := 0
  nowrite : Nat := 0
  pad : Nat := 0
  prealloc : Nat := 0
  resume : Nat := 0
  self : Nat := 0
  sparing : Nat := 0
  sparse : Nat := 0
  ssync : Nat := 0
  strunc : Nat := 0
  trunc : Nat := 0
  wsame16 : Nat := 0
  deriving Repr, DecidableEq

/-- The fields of `struct opts_t` that the embedded functions read or
write.  Initial values mirror `main`'s initialisation (ddpt.c:3540-3560):
everything zeroed except `dd_count = -1` and `highest_unrecovered = -1`. -/
structure OptsT where
  ibs : Nat := 0
  obs : Nat := 0
  ibs_hold : Nat := 0
  /-- `ibs_pi` / `obs_pi`: block sizes inflated by protection-information
  bytes (ddpt.c:3718-3719 start them equal to `ibs` / `obs`). -/
  ibs_pi : Nat := 0
  obs_pi : Nat := 0
  bpt_i : Nat := 0
  bpt_given : Bool := false
  obpc : Nat := 0
  skip : Int := 0
  seek : Int := 0
  dd_count : Int := -1
  in_type : Nat := FT_OTHER
  out_type : Nat := FT_OTHER
  iflag : FlagsT := {}
  oflag : FlagsT := {}
  inf : String := ""
  outf : String := ""
  reading_fifo : Bool := false
  coe_limit : Nat := 0
  coe_count : Nat := 0
  in_full : Int := 0
  in_partial : Int := 0
  out_full : Int := 0
  out_partial : Int := 0
  out_sparse : Int := 0
  out_sparse_partial : Int := 0
  unrecovered_errs : Nat := 0
  trim_errs : Nat := 0
  interrupted_retries : Nat := 0
  highest_unrecovered : Int := -1
  lowest_unrecovered : Int := 0
  err_to_report : Nat := 0
  verbose : Int := 0
  last_tape_read_len : Int := 0
  read_tape_numbytes : Nat := 0
  consec_same_len_reads : Nat := 0
  deriving Repr, DecidableEq

/-- The per-chunk state, `struct cp_state_t` of ddpt.h; zero-initialised
before the copy loop (ddpt.c:3286). -/
structure CpStateT where
  if_filepos : Int := 0
  of_filepos : Int := 0
  icbpt : Nat := 0
  ocbpt : Nat := 0
  leave_after_write : Nat := 0
  leave_reason : Nat := 0
  partial_write_bytes : Nat := 0
  bytes_read : Nat := 0
  bytes_of : Nat := 0
  bytes_of2 : Nat := 0
  deriving Repr, DecidableEq

/-! ### Small helpers translated from the source -/

/-- `default_bpt_i` (ddpt.c:769-784): default blocks-per-transfer chosen
from the input block size. -/
def default_bpt_i (ibs : Nat) : Nat :=
  if ibs < 8 then DEF_BPT_LT8
  else if ibs < 64 then DEF_BPT_LT64
  else if ibs < 1024 then DEF_BPT_LT1024
  else if ibs < 8192 then DEF_BPT_LT8192
  else if ibs < 31768 then DEF_BPT_LT32768
  else DEF_BPT_GE32768

/-- `zero_coe_limit_count` (ddpt.c:1443-1448): reset `coe_count` when a
`coe_limit` is in force. -/
def zero_coe_limit_count (op : OptsT) : OptsT :=
  if op.coe_limit > 0 then { op with coe_count := 0 } else op

/-- `coe_process_eio` (ddpt.c:2167-2190): bookkeeping for an EIO /
EREMOTEIO read error treated as a medium error under `coe`.  Returns the
C function's return value (`0`, or `SG_LIB_CAT_MEDIUM_HARD` when the
consecutive-error limit is exceeded) together with the updated state.
The C `++op->coe_count` is evaluated only when `coe_limit > 0`
(short-circuit of `&&`). -/
def coe_eio_process (op : OptsT) (skip : Int) : Nat × OptsT :=
  let op1 := if op.coe_limit > 0 then { op with coe_count := op.coe_count + 1 } else op
  if op1.coe_limit > 0 ∧ op1.coe_count > op1.coe_limit then
    (SG_LIB_CAT_MEDIUM_HARD, op1)
  else
    let op2 :=
      if op1.highest_unrecovered < 0 then
        { op1 with highest_unrecovered := skip, lowest_unrecovered := skip }
      else
        let op1a :=
          if skip < op1.lowest_unrecovered then { op1 with lowest_unrecovered := skip }
          else op1
        if skip > op1a.highest_unrecovered then { op1a with highest_unrecovered := skip }
        else op1a
    (0, { op2 with
            unrecovered_errs := op2.unrecovered_errs + 1,
            in_partial := op2.in_partial + 1,
            in_full := op2.in_full - 1 })

/-! ### The coe (continue-on-error) fallback, `coe_cp_read_block_reg` -/

/-- Result of one iteration of the per-block recovery loop. -/
inductive CoeBlockOut where
  /-- The C loop body executed a `return` with this nonzero code. -/
  | fatal (code : Nat) (op : OptsT)
  /-- The C loop body jumped to `short_read` with this last read result. -/
  | shortRead (op : OptsT) (csp : CpStateT) (res : Int)
  /-- The C loop body fell through to `++op->in_full`; continue. -/
  | next (op : OptsT) (csp : CpStateT)
  deriving Repr, DecidableEq

/-- Body of the for-loop of `coe_cp_read_block_reg` (ddpt.c:2238-2284) for
one block: the lazy reseek, the zero pre-fill of the block, the
single-block `read` whose result is `res`, and the dispatch on that
result.  `seekOk` is the outcome of `lseek` when one is issued.  The
`memset(wrkPos, 0, ibs)` zero-fill of the block is performed before every
read (ddpt.c:2252); buffer contents are not tracked by this embedding. -/
def coe_one_block (op : OptsT) (csp : CpStateT) (my_skip : Int) (seekOk : Bool)
    (res : Int) : CoeBlockOut :=
  let ibs : Nat := op.ibs_pi
  let offset : Int := my_skip * (ibs : Int)
  if offset ≠ csp.if_filepos ∧ ¬ seekOk then
    .fatal SG_LIB_FILE_ERROR op
  else
    let csp := if offset ≠ csp.if_filepos then { csp with if_filepos := offset } else csp
    if res = 0 then
      .shortRead op { csp with leave_reason := 0 } res
    else if res < 0 then
      if res = -Eio ∨ res = -Eremoteio then
        match coe_eio_process op my_skip with
        | (0, op') => .next op' csp
        | (res2, op') => .fatal res2 op'
      else
        .shortRead op { csp with leave_reason := SG_LIB_CAT_OTHER } res
    else if res < (ibs : Int) then
      .shortRead op { csp with leave_reason := 0 } res
    else
      .next (zero_coe_limit_count op) { csp with if_filepos := csp.if_filepos + (ibs : Int) }

/-- Result of the whole recovery loop of `coe_cp_read_block_reg`. -/
inductive CoeLoopOut where
  /-- A `return code` was executed with a nonzero code. -/
  | fatal (code : Nat) (op : OptsT)
  /-- The loop ran to `k = csp->icbpt` and the function returns 0. -/
  | done (op : OptsT) (csp : CpStateT)
  /-- Control reached the `short_read` label with loop counter `k` and
  last read result `res`. -/
  | short (op : OptsT) (csp : CpStateT) (k : Nat) (res : Int)
  deriving Repr, DecidableEq

/-- The for-loop of `coe_cp_read_block_reg` (ddpt.c:2238-2284), iterating
`coe_one_block` for `rem = csp.icbpt - k` blocks.  `reads i` / `seeks i`
are the results of the `i`-th single-block `read` / `lseek` issued by the
loop.  Each completed block adds one to `in_full` and `ibs` to
`bytes_read` (ddpt.c:2282-2283). -/
def coe_loop (op : OptsT) (csp : CpStateT) (rem k : Nat) (my_skip : Int)
    (reads : Nat → Int) (seeks : Nat → Bool) (i : Nat) : CoeLoopOut :=
  match rem with
  | 0 => .done op csp
  | rem' + 1 =>
    match coe_one_block op csp my_skip (seeks i) (reads i) with
    | .fatal code op' => .fatal code op'
    | .shortRead op' csp' res => .short op' csp' k res
    | .next op' csp' =>
      coe_loop { op' with in_full := op'.in_full + 1 }
        { csp' with bytes_read := csp'.bytes_read + op'.ibs_pi }
        rem' (k + 1) (my_skip + 1) reads seeks (i + 1)

/-- Result of a copy-loop read function: either a nonzero return code, or
return 0 with the updated states. -/
inductive ReadOut where
  | err (code : Nat) (op : OptsT)
  | ok (op : OptsT) (csp : CpStateT)
  deriving Repr, DecidableEq

/-- The `short_read` label of `coe_cp_read_block_reg` (ddpt.c:2287-2303):
convert the bytes gathered so far into `icbpt` / `ocbpt` /
`partial_write_bytes` and request loop exit after the write. -/
def coe_short_read (op : OptsT) (csp : CpStateT) (k : Nat) (res : Int) : ReadOut :=
  let ibs : Nat := op.ibs_pi
  let total_read : Nat := ibs * k + (if res > 0 then res.toNat else 0)
  let csp := { csp with icbpt := total_read / ibs }
  let (op, csp) :=
    if total_read % ibs > 0 then
      ({ op with in_partial := op.in_partial + 1 }, { csp with icbpt := csp.icbpt + 1 })
    else (op, csp)
  let csp := { csp with ocbpt := total_read / op.obs,
                        leave_after_write := csp.leave_after_write + 1 }
  if csp.leave_reason = 0 then
    .ok op { csp with partial_write_bytes := total_read % op.obs }
  else
    -- if short read (not EOF) implies partial writes, bump obpt (ddpt.c:2299-2301)
    if total_read % op.obs > 0 then
      .ok op { csp with ocbpt := csp.ocbpt + 1 }
    else
      .ok op csp

/-- `coe_cp_read_block_reg` (ddpt.c:2198-2304): after a failed or short
bulk read (`numread_errno` is the byte count obtained, `0` for EOF, or
`-errno`), keep the whole blocks already read and re-read the rest of the
chunk one block at a time, substituting zeros for unreadable blocks. -/
def coe_cp_read_block_reg (op : OptsT) (csp : CpStateT) (numread_errno : Int)
    (reads : Nat → Int) (seeks : Nat → Bool) : ReadOut :=
  let ibs : Nat := op.ibs_pi
  if numread_errno = 0 then
    .ok op { csp with icbpt := 0, ocbpt := 0,
                      leave_after_write := csp.leave_after_write + 1,
                      leave_reason := 0 }
  else if numread_errno < 0 ∧ ¬ (numread_errno = -Eio ∨ numread_errno = -Eremoteio) then
    .err SG_LIB_CAT_OTHER op
  else if numread_errno < 0 ∧ csp.icbpt = 1 then
    -- Don't read again, this must be bad block (ddpt.c:2215-2223)
    match coe_eio_process op op.skip with
    | (0, op') =>
      .ok { op' with in_full := op'.in_full + 1 }
        { csp with bytes_read := csp.bytes_read + ibs }
    | (res2, op') => .err res2 op'
  else
    let num_read : Nat := if numread_errno < 0 then 0 else (numread_errno.toNat / ibs) * ibs
    let k : Nat := num_read / ibs
    let op := if k > 0 then zero_coe_limit_count { op with in_full := op.in_full + k } else op
    let csp := { csp with bytes_read := num_read }
    let my_skip : Int := op.skip + k
    match coe_loop op csp (csp.icbpt - k) k my_skip reads seeks 0 with
    | .fatal code op' => .err code op'
    | .done op' csp' => .ok op' csp'
    | .short op' csp' k' res => coe_short_read op' csp' k' res

/-! ### The main copy loop's block/regular read, `cp_read_block_reg` -/

/-- `cp_read_block_reg` (ddpt.c:2309-2422), the copy loop's read for a
block device or regular file (the win32 branch is omitted).  `seekOk` is
the result of the lazy `lseek`, `bulk` the result of the whole-chunk
`read`, `lurk` the result of the extra one-block read used to check for a
lurking EIO after a short read, and `coeReads` / `coeSeeks` feed the coe
fallback when it is invoked. -/
def cp_read_block_reg (op : OptsT) (csp : CpStateT) (seekOk : Bool) (bulk : Int)
    (lurk : Int) (coeReads : Nat → Int) (coeSeeks : Nat → Bool) : ReadOut :=
  let ibs : Nat := op.ibs_pi
  let offset : Int := op.skip * (ibs : Int)
  let numbytes : Nat := csp.icbpt * ibs
  if offset ≠ csp.if_filepos ∧ ¬ seekOk then
    .err SG_LIB_FILE_ERROR op
  else
    let csp := if offset ≠ csp.if_filepos then { csp with if_filepos := offset } else csp
    let res : Int := bulk
    if op.iflag.coe ≠ 0 ∧ res < (numbytes : Int) then
      let res2 := res      -- already encoded as bytes-or-(-errno)
      let csp := if res2 > 0 then { csp with if_filepos := csp.if_filepos + res2 } else csp
      coe_cp_read_block_reg op csp res2 coeReads coeSeeks
    else if res < 0 then
      if res = -Eio ∨ res = -Eremoteio then .err SG_LIB_CAT_MEDIUM_HARD op
      else .err SG_LIB_CAT_OTHER op
    else if res < (numbytes : Int) then
      let rn : Nat := res.toNat
      let csp := { csp with icbpt := rn / ibs }
      let (op, csp) :=
        if rn % ibs > 0 then
          ({ op with in_partial := op.in_partial + 1, in_full := op.in_full - 1 },
           { csp with icbpt := csp.icbpt + 1 })
        else (op, csp)
      let csp := { csp with ocbpt := rn / op.obs,
                            leave_after_write := csp.leave_after_write + 1,
                            leave_reason := 0 }
      -- check for a lurking EIO with one extra single-block read (ddpt.c:2390-2412)
      let (op, csp, res2) :=
        if (ibs : Int) ≤ res ∧ res ≤ (numbytes : Int) - (ibs : Int) then
          if lurk < 0 then
            if lurk = -Eio ∨ lurk = -Eremoteio then
              ({ op with unrecovered_errs := op.unrecovered_errs + 1 },
               { csp with leave_reason := SG_LIB_CAT_MEDIUM_HARD }, lurk)
            else
              (op, { csp with leave_reason := SG_LIB_CAT_OTHER }, lurk)
          else
            (op, { csp with if_filepos := csp.if_filepos + lurk }, lurk)
        else (op, csp, 0)
      let csp :=
        if csp.leave_reason = 0 then
          { csp with partial_write_bytes := (rn + res2.toNat) % op.obs }
        else if rn % op.obs > 0 then { csp with ocbpt := csp.ocbpt + 1 }
        else csp
      let csp := { csp with if_filepos := csp.if_filepos + res, bytes_read := rn }
      .ok { op with in_full := op.in_full + csp.icbpt } csp
    else
      let csp := { csp with if_filepos := csp.if_filepos + res, bytes_read := res.toNat }
      .ok { op with in_full := op.in_full + csp.icbpt } csp

/-! ### The other read variants -/

/-- `cp_read_pt` (ddpt.c:2131-2163), the copy loop's read for a
pass-through device.  `ptRes` / `blks_read` are the status and progress
reported by the external `pt_read` (file `ddpt_pt.c`, not under `src/`;
modelled from the spec: on error with partial progress the port reports
the blocks read so far). -/
def cp_read_pt (op : OptsT) (csp : CpStateT) (ptRes : Nat) (blks_read : Nat) :
    ReadOut :=
  if ptRes ≠ 0 ∧ blks_read = 0 then
    .err ptRes op
  else
    -- limp on if data, should stop after write; hold err number (ddpt.c:2147-2148)
    let op := if ptRes ≠ 0 then { op with err_to_report := ptRes } else op
    let (op, csp) :=
      if blks_read < csp.icbpt then
        (op, { csp with leave_after_write := csp.leave_after_write + 1,
                        icbpt := blks_read,
                        -- round down since don't do partial writes from pt reads
                        ocbpt := blks_read * op.ibs / op.obs })
      else (op, csp)
    .ok { op with in_full := op.in_full + csp.icbpt } csp

/-- `cp_read_tape` (ddpt.c:2444-2513), the copy loop's read for a tape
device.  `res` is the result of the single `read` of the requested
`icbpt * ibs` bytes (`-errno` when negative); the consecutive-same-length
summary counters are updated only under `verbose > 1`, as in the source. -/
def cp_read_tape (op : OptsT) (csp : CpStateT) (res : Int) : ReadOut :=
  let num : Nat := csp.icbpt * op.ibs
  let op := { op with read_tape_numbytes := num }
  if res < 0 then
    let op := { op with last_tape_read_len := 0 }
    if res = -Eio ∨ res = -Eremoteio then .err SG_LIB_CAT_MEDIUM_HARD op
    else .err SG_LIB_CAT_OTHER op
  else
    let op :=
      if op.verbose > 1 then
        if res = op.last_tape_read_len then
          { op with consec_same_len_reads := op.consec_same_len_reads + 1 }
        else
          { op with last_tape_read_len := res, consec_same_len_reads := 1 }
      else op
    let rn : Nat := res.toNat
    let (op, csp) :=
      if res < (num : Int) then
        let csp := { csp with icbpt := rn / op.ibs }
        let (op, csp) :=
          if rn % op.ibs > 0 then
            ({ op with in_partial := op.in_partial + 1, in_full := op.in_full - 1 },
             { csp with icbpt := csp.icbpt + 1 })
          else (op, csp)
        (op, { csp with ocbpt := rn / op.obs,
                        leave_after_write := csp.leave_after_write + 1,
                        leave_reason := REASON_TAPE_SHORT_READ,
                        partial_write_bytes := rn % op.obs })
      else (op, csp)
    let csp := { csp with if_filepos := csp.if_filepos + res, bytes_read := rn }
    .ok { op with in_full := op.in_full + csp.icbpt } csp

/-- The gather loop of `cp_read_fifo` (ddpt.c:2532-2558): repeated `read`
calls accumulate `k` bytes until the full chunk of `numbytes` is gathered
or a read returns 0 (EOF) or an error.  `reads i` is the result of the
`i`-th `read`; `fuel` bounds the recursion (each productive read returns
at least one byte, so `numbytes` steps suffice). -/
def cp_read_fifo_loop (op : OptsT) (csp : CpStateT) (numbytes : Nat)
    (reads : Nat → Int) (fuel k i : Nat) : ReadOut :=
  if k < numbytes then
    match fuel with
    | 0 => .err SG_LIB_CAT_OTHER op    -- unreachable under a productive oracle
    | fuel' + 1 =>
      let res := reads i
      if res < 0 then .err SG_LIB_CAT_OTHER op
      else if res = 0 then
        let csp := { csp with icbpt := k / op.ibs }
        let (op, csp) :=
          if k % op.ibs > 0 then
            ({ op with in_partial := op.in_partial + 1, in_full := op.in_full - 1 },
             { csp with icbpt := csp.icbpt + 1 })
          else (op, csp)
        let csp := { csp with ocbpt := k / op.obs,
                              leave_after_write := csp.leave_after_write + 1,
                              leave_reason := 0,
                              partial_write_bytes := k % op.obs }
        let csp := { csp with if_filepos := csp.if_filepos + k, bytes_read := k }
        .ok { op with in_full := op.in_full + csp.icbpt } csp
      else
        cp_read_fifo_loop op csp numbytes reads fuel' (k + res.toNat) (i + 1)
  else
    let csp := { csp with if_filepos := csp.if_filepos + k, bytes_read := k }
    .ok { op with in_full := op.in_full + csp.icbpt } csp

/-- `cp_read_fifo` (ddpt.c:2517-2563), the copy loop's read for a fifo:
no seek is issued, `if_filepos` is only recorded (ddpt.c:2525-2530). -/
def cp_read_fifo (op : OptsT) (csp : CpStateT) (reads : Nat → Int) : ReadOut :=
  let offset : Int := op.skip * (op.ibs : Int)
  let numbytes : Nat := csp.icbpt * op.ibs
  let csp := if offset ≠ csp.if_filepos then { csp with if_filepos := offset } else csp
  cp_read_fifo_loop op csp numbytes reads (numbytes + 1) 0 0

/-! ### Chunk planning and post-write bookkeeping in `do_copy` -/

/-- The chunk-planning head of the copy loop (ddpt.c:3294-3312): the
iteration's `icbpt` / `ocbpt`, with `ibpt = op.bpt_i` and
`obpt = (op.ibs * op.bpt_i) / op.obs` (ddpt.c:3287-3288).  For a final
short chunk whose byte count is not a multiple of `obs`, `ocbpt` is
rounded up and the whole work buffer pre-zeroed so the final short write
pads with zeros (ddpt.c:3308-3311); buffer contents are not tracked. -/
def plan_chunk (op : OptsT) (csp : CpStateT) (continual_read : Bool) : CpStateT :=
  let ibpt := op.bpt_i
  let obpt := op.ibs * op.bpt_i / op.obs
  let csp := { csp with bytes_read := 0, bytes_of := 0, bytes_of2 := 0 }
  if op.dd_count ≥ (ibpt : Int) ∨ continual_read then
    { csp with icbpt := ibpt, ocbpt := obpt }
  else
    let icbpt := op.dd_count.toNat
    let n := icbpt * op.ibs
    let csp := { csp with icbpt := icbpt, ocbpt := n / op.obs }
    if n % op.obs ≠ 0 then { csp with ocbpt := csp.ocbpt + 1 } else csp

/-- The bottom of the copy loop (ddpt.c:3399-3413): decrement `dd_count`,
advance `skip` and `seek`, and decide whether the loop goes on.  Returns
`none` when the loop continues, `some ret` when it exits with `ret`.
A pending `REASON_TAPE_SHORT_READ` is the one leave reason that lets the
loop continue, after clearing `partial_write_bytes` and
`leave_after_write` (ddpt.c:3404-3407). -/
def post_write_bookkeeping (op : OptsT) (csp : CpStateT) :
    Option Nat × OptsT × CpStateT :=
  let op := if op.dd_count > 0 then { op with dd_count := op.dd_count - csp.icbpt } else op
  let op := { op with skip := op.skip + csp.icbpt, seek := op.seek + csp.ocbpt }
  if csp.leave_after_write ≠ 0 then
    if csp.leave_reason = REASON_TAPE_SHORT_READ then
      -- allow multiple partial writes for tape
      (none, op, { csp with partial_write_bytes := 0, leave_after_write := 0 })
    else
      (some csp.leave_reason, op, csp)
  else
    (none, op, csp)

/-! ### The write variants

Write functions return the C return value (an `Int`: `0`, `-1`, `-2` or a
`SG_LIB_*` category), the updated states, and the list of commands they
issued towards the primary output, so that "no write was issued" is a
statement about the returned list. -/

/-- A command issued towards OFILE by the write phase. -/
inductive Action where
  /-- A `write(2)` on the output descriptor of this many bytes. -/
  | sysWrite (numbytes : Nat)
  /-- A `pt_write` of `blks` blocks at `lba`. -/
  | ptWrite (blks : Nat) (lba : Int)
  /-- A `pt_write_same16` (TRIM / UNMAP) of `blks` blocks at `lba`. -/
  | ptWriteSame16 (blks : Nat) (lba : Int)
  deriving Repr, DecidableEq

/-- `cp_write_pt` (ddpt.c:2710-2744): the pass-through write.  `ptRes` is
the result of the external `pt_write`.  A partial residual is either
zero-padded to a whole block (`oflag=pad`) or dropped with a warning. -/
def cp_write_pt (op : OptsT) (csp : CpStateT) (seek_delta : Int) (blks : Nat)
    (ptRes : Int) : Int × OptsT × CpStateT × List Action :=
  let aseek : Int := op.seek + seek_delta
  if op.oflag.nowrite ≠ 0 then (0, op, csp, [])
  else
    let (csp, blks) :=
      if csp.partial_write_bytes > 0 ∧ op.oflag.pad ≠ 0 then
        ({ csp with ocbpt := csp.ocbpt + 1 }, blks + 1)
      else (csp, blks)
    if ptRes ≠ 0 then (ptRes, op, csp, [.ptWrite blks aseek])
    else (0, { op with out_full := op.out_full + blks }, csp, [.ptWrite blks aseek])

/-- `cp_write_tape` (ddpt.c:2749-2844): the tape write.  `w1` is the
result of the `write`, `w2` of the single retry made after an early-
warning `ENOSPC` when `oflag=ignoreew` is set (ddpt.c:2801-2815). -/
def cp_write_tape (op : OptsT) (csp : CpStateT) (w1 w2 : Int) :
    Int × OptsT × CpStateT × List Action :=
  let obs := op.obs
  if op.oflag.nowrite ≠ 0 then (0, op, csp, [])
  else
    let blks := csp.ocbpt
    let numbytes := blks * obs
    let (op, csp, blks, numbytes) :=
      if csp.partial_write_bytes > 0 then
        let numbytes := numbytes + csp.partial_write_bytes
        if op.oflag.nopad ≠ 0 then
          ({ op with out_partial := op.out_partial + 1 }, csp, blks, numbytes)
        else
          (op, { csp with ocbpt := csp.ocbpt + 1 }, blks + 1, (blks + 1) * obs)
      else (op, csp, blks, numbytes)
    let (res, acts) :=
      if op.oflag.ignoreew ≠ 0 ∧ w1 = -Enospc then
        (w2, [Action.sysWrite numbytes, Action.sysWrite numbytes])
      else (w1, [Action.sysWrite numbytes])
    if res < 0 then
      if res = -Eio ∨ res = -Eremoteio then (SG_LIB_CAT_MEDIUM_HARD, op, csp, acts)
      else (SG_LIB_CAT_OTHER, op, csp, acts)
    else if res < (numbytes : Int) then
      let rn := res.toNat
      let op := { op with out_full := op.out_full + rn / obs }
      let op :=
        if rn % obs > 0 then
          { op with out_partial := op.out_partial + 1, out_full := op.out_full + 1 }
        else op
      (-1, op, { csp with of_filepos := csp.of_filepos + res, bytes_of := rn }, acts)
    else
      (0, { op with out_full := op.out_full + blks },
       { csp with of_filepos := csp.of_filepos + numbytes, bytes_of := numbytes }, acts)

/-- The `write` do-while loop of `cp_write_block_reg` (ddpt.c:2952-2963):
a fifo write loops while it makes progress.  Returns the last `res` and
the accumulated offset `off` (which the loop condition advances whenever
the output is a fifo and `res > 0`), and the writes issued. -/
def cp_write_loop (out_type numbytes : Nat) (wres : Nat → Int) (fuel off i : Nat) :
    Int × Nat × List Action :=
  let res := wres i
  let off' := if out_type &&& FT_FIFO ≠ 0 ∧ res > 0 then off + res.toNat else off
  match fuel with
  | 0 => (res, off', [.sysWrite (numbytes - off)])
  | fuel' + 1 =>
    if out_type &&& FT_FIFO ≠ 0 ∧ res > 0 ∧ off' < numbytes then
      let (r, o, a) := cp_write_loop out_type numbytes wres fuel' off' (i + 1)
      (r, o, .sysWrite (numbytes - off) :: a)
    else
      (res, off', [.sysWrite (numbytes - off)])

/-- `cp_write_block_reg` (ddpt.c:2849-3000), the write for a block
device, fifo or regular file (the win32 branch is omitted).  `seekOk` is
the result of the lazy `lseek` (skipped after a tape short read), and
`wres i` the result of the `i`-th `write`. -/
def cp_write_block_reg (op : OptsT) (csp : CpStateT) (seek_delta : Int)
    (blks : Nat) (seekOk : Bool) (wres : Nat → Int) :
    Int × OptsT × CpStateT × List Action :=
  if op.oflag.nowrite ≠ 0 then (0, op, csp, [])
  else
    let obs := op.obs_pi
    let aseek : Int := op.seek + seek_delta
    let offset : Int := aseek * (obs : Int)
    let numbytes := blks * obs
    let (op, csp, blks, numbytes) :=
      if csp.partial_write_bytes > 0 then
        if op.oflag.pad ≠ 0 then
          (op, { csp with ocbpt := csp.ocbpt + 1 }, blks + 1, (blks + 1) * obs)
        else if op.out_type &&& FT_BLOCK ≠ 0 then
          (op, csp, blks, numbytes)     -- ignore partial write to block device
        else
          ({ op with out_partial := op.out_partial + 1 }, csp, blks,
           numbytes + csp.partial_write_bytes)
      else (op, csp, blks, numbytes)
    if offset ≠ csp.of_filepos ∧ csp.leave_reason ≠ REASON_TAPE_SHORT_READ ∧ ¬ seekOk then
      (SG_LIB_FILE_ERROR, op, csp, [])
    else
      let csp :=
        if offset ≠ csp.of_filepos ∧ csp.leave_reason ≠ REASON_TAPE_SHORT_READ then
          { csp with of_filepos := offset }
        else csp
      let (res, off, acts) := cp_write_loop op.out_type numbytes wres numbytes 0 0
      let res : Int := if off ≥ numbytes then (numbytes : Int) else res
      if res < 0 then
        if res = -Eio ∨ res = -Eremoteio then (SG_LIB_CAT_MEDIUM_HARD, op, csp, acts)
        else (SG_LIB_CAT_OTHER, op, csp, acts)
      else if res < (numbytes : Int) then
        let rn := res.toNat
        let op := { op with out_full := op.out_full + rn / obs }
        let op :=
          if rn % obs > 0 then
            { op with out_partial := op.out_partial + 1, out_full := op.out_full + 1 }
          else op
        (-1, op, { csp with of_filepos := csp.of_filepos + res, bytes_of := rn }, acts)
      else
        (0, { op with out_full := op.out_full + blks },
         { csp with of_filepos := csp.of_filepos + numbytes, bytes_of := numbytes }, acts)

/-! ### Sparing reads, the finer comparison, and the write section -/

/-- `memcmp(b1 + k, b2 + k, n) == 0`: the first `n` bytes at offset `k`
of the two buffers compare equal. -/
def memcmp_eq (b1 b2 : List Nat) (k n : Nat) : Bool :=
  decide ((b1.drop k).take n = (b2.drop k).take n)

/-- The zeros buffer allocated by `cp_construct_pt_zero_buff`
(ddpt.c:3162-3168): `obpt * obs` bytes of zeros. -/
def zeros_buff (op : OptsT) (obpt : Nat) : List Nat :=
  List.replicate (obpt * op.obs) 0

/-- `cp_read_of_pt` (ddpt.c:2606-2621): the sparing read of the output
via pass-through.  `ptRes` / `blks_read` report the external `pt_read`. -/
def cp_read_of_pt (csp : CpStateT) (ptRes : Int) (blks_read : Nat) : Int :=
  if ptRes ≠ 0 then ptRes
  else if blks_read ≠ csp.ocbpt then 1
  else 0

/-- `cp_read_of_block_reg` (ddpt.c:2626-2705), non-win32 branch: the
sparing read of the output for a block device or regular file.  `res` is
the result of the `read` (the partial residual is fetched as well,
ddpt.c:2678-2683). -/
def cp_read_of_block_reg (op : OptsT) (csp : CpStateT) (seekOk : Bool) (res : Int) :
    Int × CpStateT :=
  let offset : Int := op.seek * (op.obs : Int)
  let numbytes : Nat := csp.ocbpt * op.obs
  if offset ≠ csp.of_filepos ∧ ¬ seekOk then
    (SG_LIB_FILE_ERROR, csp)
  else
    let csp := if offset ≠ csp.of_filepos then { csp with of_filepos := offset } else csp
    let numbytes := if csp.partial_write_bytes > 0 then numbytes + csp.partial_write_bytes
                    else numbytes
    if res < 0 then (-1, csp)
    else if res = (numbytes : Int) then
      (0, { csp with of_filepos := csp.of_filepos + numbytes })
    else (1, csp)

/-- Flush one pending "needs writing" run of `cp_finer_comp_wr`
(ddpt.c:3090-3099 and 3128-3137): dispatch on the output type.  The data
written comes from `b1p + wr_k`; buffer contents are not tracked. -/
def finer_flush_wr (op : OptsT) (csp : CpStateT) (wr_k wr_len : Nat)
    (wres : Int) : Int × OptsT × CpStateT × List Action :=
  let obs := op.obs
  if op.out_type &&& FT_DEV_NULL ≠ 0 then (0, op, csp, [])
  else if op.out_type &&& FT_PT ≠ 0 then
    cp_write_pt op csp ((wr_k / obs : Nat) : Int) (wr_len / obs) wres
  else
    cp_write_block_reg op csp ((wr_k / obs : Nat) : Int) (wr_len / obs) true
      (fun _ => wres)

/-- Issue the pending trim run of `cp_finer_comp_wr` (ddpt.c:3118-3125
and 3139-3145): a `pt_write_same16` over the zeros of the run; a trim
error only bumps `trim_errs`, the copy continues. -/
def finer_flush_tr (op : OptsT) (tr_k tr_len : Nat) (tres : Int) :
    OptsT × List Action :=
  let obs := op.obs
  let op := if tres ≠ 0 then { op with trim_errs := op.trim_errs + 1 } else op
  (op, [.ptWriteSame16 (tr_len / obs) (op.seek + ((tr_k / obs : Nat) : Int))])

/-- The run-accumulation state of `cp_finer_comp_wr`'s loop: the pending
"needs writing" run and the pending "trim these zeros" run
(ddpt.c:3084-3087). -/
structure FinerSt where
  need_wr : Bool := false
  wr_len : Nat := 0
  wr_k : Nat := 0
  need_tr : Bool := false
  tr_len : Nat := 0
  tr_k : Nat := 0
  deriving Repr, DecidableEq

/-- The post-loop flushes of `cp_finer_comp_wr` (ddpt.c:3128-3145):
write a still-pending "needs writing" run, then issue a still-pending
trim run. -/
def finer_finish (op : OptsT) (csp : CpStateT) (st : FinerSt) (wenv : Nat → Int)
    (j : Nat) : Int × OptsT × CpStateT × List Action :=
  let (ret, op, csp, acts, j) :=
    if st.need_wr then
      match finer_flush_wr op csp st.wr_k st.wr_len (wenv j) with
      | (ret, op', csp', a) => (ret, op', csp', a, j + 1)
    else (0, op, csp, [], j)
  if ret ≠ 0 then (ret, op, csp, acts)
  else if st.need_tr then
    let (op, a2) := finer_flush_tr op st.tr_k st.tr_len (wenv j)
    (0, op, csp, acts ++ a2)
  else (0, op, csp, acts)

/-- The loop of `cp_finer_comp_wr` (ddpt.c:3087-3127), walking the chunk
in `chunk = obpc * obs` byte steps; on exit (`k ≥ numbytes`, with
`fuel = numbytes` sufficient since `chunk ≥ 1` on this path) the pending
runs are flushed by `finer_finish`.  `wenv j` is the result of the `j`-th
write or trim command issued. -/
def finer_loop (op : OptsT) (csp : CpStateT) (b1p b2p : List Nat)
    (numbytes chunk : Nat) (trim_check : Bool) (wenv : Nat → Int)
    (fuel k : Nat) (st : FinerSt) (j : Nat) :
    Int × OptsT × CpStateT × List Action :=
  match fuel with
  | 0 => finer_finish op csp st wenv j
  | fuel' + 1 =>
    if k < numbytes then
      let n := if k + chunk < numbytes then chunk else numbytes - k
      if memcmp_eq b1p b2p k n then
        let (ret, op, csp, acts, j) :=
          if st.need_wr then
            match finer_flush_wr op csp st.wr_k st.wr_len (wenv j) with
            | (ret, op', csp', a) => (ret, op', csp', a, j + 1)
          else (0, op, csp, [], j)
        if ret ≠ 0 then (ret, op, csp, acts)
        else
          let st :=
            if st.need_tr then { st with need_wr := false, tr_len := st.tr_len + n }
            else if trim_check then
              { st with need_wr := false, need_tr := true, tr_len := n, tr_k := k }
            else { st with need_wr := false }
          let op := { op with out_sparse := op.out_sparse + ((n / op.obs : Nat) : Int) }
          let (ret2, op, csp, acts2) :=
            finer_loop op csp b1p b2p numbytes chunk trim_check wenv fuel'
              (k + chunk) st j
          (ret2, op, csp, acts ++ acts2)
      else
        let st :=
          if st.need_wr then { st with wr_len := st.wr_len + n }
          else { st with need_wr := true, wr_len := n, wr_k := k }
        let (op, acts, j) :=
          if st.need_tr then
            let (op, a) := finer_flush_tr op st.tr_k st.tr_len (wenv j)
            (op, a, j + 1)
          else (op, [], j)
        let st := { st with need_tr := false }
        let (ret2, op, csp, acts2) :=
          finer_loop op csp b1p b2p numbytes chunk trim_check wenv fuel'
            (k + chunk) st j
        (ret2, op, csp, acts ++ acts2)
    else finer_finish op csp st wenv j

/-- `cp_finer_comp_wr` (ddpt.c:3058-3147): subdivide the chunk into
`obpc`-block pieces, compare each against `b2p` (the zeros buffer for
sparse, the existing output for sparing), write only the runs that
differ, and trim runs of zeros when `sparse`+`wsame16`+pass-through. -/
def cp_finer_comp_wr (op : OptsT) (csp : CpStateT) (b1p b2p : List Nat)
    (wenv : Nat → Int) : Int × OptsT × CpStateT × List Action :=
  let oblks := csp.ocbpt
  let obs := op.obs
  if op.obpc ≥ oblks then
    if op.out_type &&& FT_DEV_NULL ≠ 0 then (0, op, csp, [])
    else if op.out_type &&& FT_PT ≠ 0 then cp_write_pt op csp 0 oblks (wenv 0)
    else cp_write_block_reg op csp 0 oblks true (fun _ => wenv 0)
  else
    let numbytes :=
      if op.out_type &&& FT_REG ≠ 0 ∧ csp.partial_write_bytes > 0 then
        oblks * obs + csp.partial_write_bytes
      else oblks * obs
    let chunk := op.obpc * obs
    let trim_check : Bool :=
      op.oflag.sparse ≠ 0 ∧ op.oflag.wsame16 ≠ 0 ∧ op.out_type &&& FT_PT ≠ 0
    finer_loop op csp b1p b2p numbytes chunk trim_check wenv numbytes 0 {} 0

/-! ### The sparse / sparing / write section of one `do_copy` iteration -/

/-- Oracle results consumed by one iteration's sparse / sparing / write
section (each field is the outcome of one external call, in program
order). -/
structure IterEnv where
  /-- Result of the `pt_write_same16` issued for an all-zeros chunk under
  `wsame16` (ddpt.c:3341-3344). -/
  ws16 : Int := 0
  /-- Results of the write / trim commands issued inside
  `cp_finer_comp_wr`. -/
  finer : Nat → Int := fun _ => 0
  /-- Result of `pt_read` for the sparing read (`cp_read_of_pt`). -/
  sparingPtRes : Int := 0
  sparingPtBlks : Nat := 0
  /-- `lseek` and `read` results for `cp_read_of_block_reg`. -/
  sparingSeekOk : Bool := true
  sparingRes : Int := 0
  /-- Result of `pt_write` for the final `cp_write_pt`. -/
  ptWriteRes : Int := 0
  /-- Results of the `write`s of the final `cp_write_tape`. -/
  tapeW1 : Int := 0
  tapeW2 : Int := 0
  /-- `lseek` and `write` results for the final `cp_write_block_reg`. -/
  blkSeekOk : Bool := true
  blkWres : Nat → Int := fun _ => 0

/-- Outcome of the sparse / sparing / write section: either the loop
`break`s with a nonzero `ret`, or control reaches `bypass_write`. -/
inductive IterOut where
  | brk (ret : Int) (op : OptsT) (csp : CpStateT) (acts : List Action)
  | wrote (op : OptsT) (csp : CpStateT) (acts : List Action)
  deriving Repr, DecidableEq

/-- The write section of the copy loop (ddpt.c:3378-3394): a sparse or
sparing skip only bumps the sparse counters; otherwise the write is
dispatched on the output type, and a dev-null output gets no call at all
("don't bump out_full (earlier revs did)", ddpt.c:3386-3387). -/
def write_dispatch (op : OptsT) (csp : CpStateT) (sparse_skip sparing_skip : Bool)
    (env : IterEnv) : IterOut :=
  if sparing_skip ∨ sparse_skip then
    let op := { op with out_sparse := op.out_sparse + csp.ocbpt }
    let op := if csp.partial_write_bytes > 0 then
                { op with out_sparse_partial := op.out_sparse_partial + 1 }
              else op
    .wrote op csp []
  else if op.out_type &&& FT_PT ≠ 0 then
    match cp_write_pt op csp 0 csp.ocbpt env.ptWriteRes with
    | (0, op', csp', a) => .wrote op' csp' a
    | (ret, op', csp', a) => .brk ret op' csp' a
  else if op.out_type &&& FT_DEV_NULL ≠ 0 then
    .wrote op csp []
  else if op.out_type &&& FT_TAPE ≠ 0 then
    match cp_write_tape op csp env.tapeW1 env.tapeW2 with
    | (0, op', csp', a) => .wrote op' csp' a
    | (ret, op', csp', a) => .brk ret op' csp' a
  else
    match cp_write_block_reg op csp 0 csp.ocbpt env.blkSeekOk env.blkWres with
    | (0, op', csp', a) => .wrote op' csp' a
    | (ret, op', csp', a) => .brk ret op' csp' a

/-- The sparse check, the sparing check and the write section of one copy
loop iteration (ddpt.c:3336-3394), entered after the read phase with the
chunk's payload in `wrk`.  `wrk2` is the buffer the sparing read fills
with the output's current content (supplied as an oracle, the read result
code being `env.sparingRes`/`env.sparingPtRes`).  `zeros` is the zeros
buffer.  `sparse_skip` and `sparing_skip` start the iteration at 0
(ddpt.c:3298-3299). -/
def sparse_sparing_write (op : OptsT) (csp : CpStateT) (wrk wrk2 zeros : List Nat)
    (env : IterEnv) : IterOut :=
  -- sparse check (ddpt.c:3336-3352)
  let n := csp.ocbpt * op.obs + csp.partial_write_bytes
  let sparse_hit : Bool := op.oflag.sparse ≠ 0 ∧ memcmp_eq wrk zeros 0 n
  if op.oflag.sparse ≠ 0 ∧ sparse_hit then
    let (op, acts) :=
      if op.oflag.wsame16 ≠ 0 ∧ op.out_type &&& FT_PT ≠ 0 then
        let op := if env.ws16 ≠ 0 then { op with trim_errs := op.trim_errs + 1 } else op
        (op, [Action.ptWriteSame16 csp.ocbpt op.seek])
      else (op, [])
    -- sparse_skip = 1: sparing section is bypassed (ddpt.c:3353)
    match write_dispatch op csp true false env with
    | .brk ret op' csp' a => .brk ret op' csp' (acts ++ a)
    | .wrote op' csp' a => .wrote op' csp' (acts ++ a)
  else if op.oflag.sparse ≠ 0 ∧ op.obpc ≠ 0 then
    match cp_finer_comp_wr op csp wrk zeros env.finer with
    | (0, op', csp', a) => .wrote op' csp' a      -- goto bypass_write
    | (ret, op', csp', a) => .brk ret op' csp' a
  else
    -- sparing check (ddpt.c:3353-3373); sparse_skip is 0 here
    if op.oflag.sparing ≠ 0 then
      let (res, csp) :=
        if op.out_type &&& FT_PT ≠ 0 then
          (cp_read_of_pt csp env.sparingPtRes env.sparingPtBlks, csp)
        else
          cp_read_of_block_reg op csp env.sparingSeekOk env.sparingRes
      if res = 0 then
        let n := csp.ocbpt * op.obs + csp.partial_write_bytes
        if memcmp_eq wrk wrk2 0 n then
          write_dispatch op csp false true env
        else if op.obpc ≠ 0 then
          match cp_finer_comp_wr op csp wrk wrk2 env.finer with
          | (0, op', csp', a) => .wrote op' csp' a
          | (ret, op', csp', a) => .brk ret op' csp' a
        else
          write_dispatch op csp false false env
      else
        .brk res op csp []
    else
      write_dispatch op csp false false env

/-! ### The count planner, `count_calculate` -/

/-- `count_calculate` (ddpt.c:3176-3258).  The sizes of the two sides are
the out-parameters of `calc_count` (ddpt.c:2074-2085), whose platform
queries are outside this embedding: `calcRes` is its return value and
`in_num_sect` / `out_num_sect` its results (`-1` when unknown).  Returns
the C return value (`0` to start the copy, nonzero to bypass it and
exit) with the updated state. -/
def count_calculate (op : OptsT) (calcRes : Int) (in_num_sect out_num_sect : Int) :
    Int × OptsT :=
  if calcRes ≠ 0 then (calcRes, op)
  else if op.oflag.resume = 0 ∧ op.dd_count > 0 then (0, op)
  else if op.skip ≠ 0 ∧ op.in_type = FT_REG ∧ op.skip > in_num_sect then
    (-1, { op with dd_count := 0 })
  else
    let valid_resume : Bool :=
      op.oflag.resume ≠ 0 ∧ op.out_type = FT_REG ∧ 0 ≤ out_num_sect
    let op :=
      if op.dd_count < 0 ∧ ¬ valid_resume then
        -- derive the count from the sizes (ddpt.c:3209-3233)
        let inn := if op.skip ≠ 0 ∧ in_num_sect > op.skip then in_num_sect - op.skip
                   else in_num_sect
        let outn := if op.seek ≠ 0 ∧ out_num_sect > op.seek then out_num_sect - op.seek
                    else out_num_sect
        if outn < 0 ∧ inn > 0 then { op with dd_count := inn }
        else if op.reading_fifo ∧ outn < 0 then op
        else if outn < 0 ∧ inn ≤ 0 then op
        else
          let ibytes : Int := if inn > 0 then (op.ibs : Int) * inn else 0
          let obytes : Int := (op.obs : Int) * outn
          if ibytes = 0 then { op with dd_count := obytes / (op.ibs : Int) }
          else if ibytes > obytes ∧ op.out_type ≠ FT_REG then
            { op with dd_count := obytes / (op.ibs : Int) }
          else { op with dd_count := inn }
      else op
    if valid_resume then
      -- resume adjustments (ddpt.c:3234-3256)
      let op := if op.dd_count < 0 then { op with dd_count := in_num_sect - op.skip }
                else op
      if out_num_sect ≤ op.seek then (0, op)   -- no previous copy, restart
      else
        let obytes : Int := (op.obs : Int) * (out_num_sect - op.seek)
        let ibk : Int := obytes / (op.ibs : Int)
        if ibk ≥ op.dd_count then (-1, { op with dd_count := 0 })  -- copy complete
        else
          let ibk := ibk / (op.bpt_i : Int) * (op.bpt_i : Int)     -- align down to bpt
          (0, { op with skip := op.skip + ibk,
                        seek := op.seek + ibk * (op.ibs : Int) / (op.obs : Int),
                        dd_count := op.dd_count - ibk })
    else (0, op)

/-- The tail of `main` (ddpt.c:4064): the process exit status for a given
`ret`, mapping every negative internal code to `SG_LIB_CAT_OTHER`. -/
def main_exit_of_ret (ret : Int) : Int :=
  if ret ≥ 0 then ret else (SG_LIB_CAT_OTHER : Nat)

/-! ### Command-line sanity checks, `cl_sanity_defaults` -/

/-- `cl_sanity_defaults` (ddpt.c:788-915): apply the block-size and bpt
defaults, then run the sanity checks in source order; returns
`SG_LIB_SYNTAX_ERROR` on rejection, otherwise the adjusted options
(warnings that change no state are omitted). -/
def cl_sanity_defaults (op : OptsT) : Except Nat OptsT :=
  let op :=
    if op.ibs = 0 ∧ op.obs = 0 then
      { op with ibs := DEF_BLOCK_SIZE, obs := DEF_BLOCK_SIZE }
    else if op.obs = 0 then { op with obs := DEF_BLOCK_SIZE }
    else if op.ibs = 0 then { op with ibs := DEF_BLOCK_SIZE }
    else op
  let op := { op with ibs_hold := op.ibs }
  let op := if ¬ op.bpt_given then { op with bpt_i := default_bpt_i op.ibs } else op
  if op.ibs ≠ op.obs ∧ op.ibs * op.bpt_i % op.obs ≠ 0 then
    .error SG_LIB_SYNTAX_ERROR
  else if op.skip < 0 ∨ op.seek < 0 then
    .error SG_LIB_SYNTAX_ERROR
  else if op.oflag.append > 0 ∧ op.seek > 0 then
    .error SG_LIB_SYNTAX_ERROR
  else if op.bpt_i < 1 then
    .error SG_LIB_SYNTAX_ERROR
  else
    -- trunc vs resume / append / sparing (ddpt.c:842-855)
    match
      (if op.oflag.trunc ≠ 0 then
        if op.oflag.resume ≠ 0 then .ok { op with oflag.trunc := 0 }
        else if op.oflag.append ≠ 0 then .ok { op with oflag.trunc := 0 }
        else if op.oflag.sparing ≠ 0 then .error SG_LIB_SYNTAX_ERROR
        else .ok op
      else .ok op : Except Nat OptsT) with
    | .error e => .error e
    | .ok op =>
      -- iflag=self / oflag=self handling (ddpt.c:856-884)
      match
        (if op.iflag.self ≠ 0 ∨ op.oflag.self ≠ 0 then
          let op := if op.oflag.self = 0 then { op with oflag.self := op.oflag.self + 1 }
                    else op
          let op :=
            if op.iflag.wsame16 ≠ 0 ∨ op.oflag.wsame16 ≠ 0 then
              let op := if op.oflag.wsame16 = 0 then
                          { op with oflag.wsame16 := op.oflag.wsame16 + 1 }
                        else op
              if op.oflag.nowrite = 0 then { op with oflag.nowrite := op.oflag.nowrite + 1 }
              else op
            else op
          let op := if op.outf = "" then { op with outf := op.inf } else op
          if op.seek = 0 ∧ op.skip > 0 then
            if op.ibs = op.obs then .ok { op with seek := op.skip }
            else if op.obs > 0 then
              let l : Int := op.skip * (op.ibs : Int)
              let seek := l / (op.obs : Int)
              if seek * (op.obs : Int) ≠ l then .error SG_LIB_SYNTAX_ERROR
              else .ok { op with seek := seek }
            else .ok op
          else .ok op
        else .ok op : Except Nat OptsT) with
      | .error e => .error e
      | .ok op =>
        -- trim/unmap implies sparse; strunc raises sparse (ddpt.c:885-888)
        let op := if op.oflag.wsame16 ≠ 0 then
                    { op with oflag.sparse := op.oflag.sparse + 2 }
                  else op
        let op := if op.oflag.strunc ≠ 0 ∧ op.oflag.sparse = 0 then
                    { op with oflag.sparse := op.oflag.sparse + 1 }
                  else op
        .ok op

/-- What `main` does with the result of `process_cl` (ddpt.c:3561-3565,
where `process_cl` returns `cl_sanity_defaults op`, ddpt.c:1169): a
positive result is returned as the exit status at once — before any file
is opened (`open_if` / `open_of`, ddpt.c:3596-3631) and before `do_copy`
(ddpt.c:3975), so no read and no write is performed. -/
inductive MainStage where
  /-- `main` returned this exit status without opening a file or copying. -/
  | early_exit (code : Nat)
  /-- `main` proceeds to open the files and copy with these options. -/
  | proceed (op : OptsT)
  deriving Repr, DecidableEq

/-- The argument-checking stage of `main` (see `MainStage`). -/
def main_after_cl (op : OptsT) : MainStage :=
  match cl_sanity_defaults op with
  | .error e => .early_exit e
  | .ok op' => .proceed op'

/-- The sparse / sparing feasibility adjustments `main` performs after
the output is opened (ddpt.c:3684-3710): `iflag=sparse` on a dev-null
output is promoted to `oflag=sparse`, and `oflag=sparse` / `oflag=sparing`
are cleared for output types that cannot support them. -/
def main_sparse_adjust (op : OptsT) : OptsT :=
  let op :=
    if op.iflag.sparse ≠ 0 ∧ op.oflag.sparse = 0 then
      if op.out_type &&& FT_DEV_NULL ≠ 0 then
        { op with oflag.sparse := op.oflag.sparse + 1 }
      else op
    else op
  let op :=
    if op.oflag.sparse ≠ 0 then
      if op.out_type &&& (FT_FIFO ||| FT_TAPE) ≠ 0 then
        { op with oflag.sparse := 0 }
      else op
    else op
  if op.oflag.sparing ≠ 0 then
    if op.out_type &&& (FT_DEV_NULL ||| FT_FIFO ||| FT_TAPE) ≠ 0 then
      { op with oflag.sparing := 0 }
    else op
  else op

/-! ### The error-block journal -/

/-- A `fopen` mode string as used by the journal code. -/
inductive FopenMode where
  | append      -- "a"
  | write       -- "w"
  deriving Repr, DecidableEq

/-- C stdio semantics: `fopen` truncates an existing file under mode
`"w"`, while `"a"` keeps its contents and appends. -/
def fopen_truncates : FopenMode → Bool
  | .write => true
  | .append => false

/-- The mode `open_errblk` (ddpt.c:560) passes to `fopen`: `"a"`. -/
def open_errblk_mode : FopenMode := .append

/-- `open_errblk` (ddpt.c:557-578) as a transformation of the journal
file's lines: open `errblk.txt` with `open_errblk_mode` and write a
`# start: <timestamp>` comment line.  `prev` is the file's previous
content and `ts` the formatted timestamp. -/
def open_errblk (prev : List String) (ts : String) : List String :=
  (if fopen_truncates open_errblk_mode then [] else prev) ++ ["# start: " ++ ts]

/-- Lowercase hexadecimal rendering of an LBA, as `fprintf` does for
`"0x%" PRIx64`. -/
def hex_lba (lba : Nat) : String :=
  "0x" ++ String.mk (Nat.toDigits 16 lba)

/-- `put_errblk` (ddpt.c:580-585): append one `0x<lba>` line when the
journal is open (`none` models a journal that failed to open). -/
def put_errblk (lba : Nat) (j : Option (List String)) : Option (List String) :=
  j.map (fun js => js ++ [hex_lba lba])

/-- `put_range_errblk` (ddpt.c:587-597): append a single-LBA line for
`num = 1`, a `0x<lba>-0x<lba + num - 1>` range line for `num > 1`, and
nothing otherwise. -/
def put_range_errblk (lba : Nat) (num : Int) (j : Option (List String)) :
    Option (List String) :=
  match j with
  | none => none
  | some js =>
    if num = 1 then put_errblk lba (some js)
    else if num > 1 then
      some (js ++ [hex_lba lba ++ "-" ++ hex_lba (lba + (num - 1).toNat)])
    else some js

/-! ### Projections and statement vocabulary -/

/-- Did the read function return 0? -/
def ReadOut.isOk : ReadOut → Bool
  | .ok _ _ => true
  | .err _ _ => false

/-- The read function's nonzero return code (0 for a successful call). -/
def ReadOut.code : ReadOut → Nat
  | .err c _ => c
  | .ok _ _ => 0

/-- The options state after the read call. -/
def ReadOut.opst : ReadOut → OptsT
  | .err _ o => o
  | .ok o _ => o

/-- The per-chunk state after the read call (on an error return the copy
loop breaks, so the dummy `{}` is never consulted). -/
def ReadOut.cspst : ReadOut → CpStateT
  | .err _ _ => {}
  | .ok _ c => c

/-- Did the sparse / sparing / write section reach `bypass_write`? -/
def IterOut.isWrote : IterOut → Bool
  | .wrote _ _ _ => true
  | .brk _ _ _ _ => false

/-- The options state after the sparse / sparing / write section. -/
def IterOut.opst : IterOut → OptsT
  | .brk _ o _ _ => o
  | .wrote o _ _ => o

/-- The per-chunk state after the sparse / sparing / write section. -/
def IterOut.cspst : IterOut → CpStateT
  | .brk _ _ c _ => c
  | .wrote _ c _ => c

/-- The commands the sparse / sparing / write section issued to OFILE. -/
def IterOut.acts : IterOut → List Action
  | .brk _ _ _ a => a
  | .wrote _ _ a => a

/-- Invariant 2 of the spec (§3): at the moment writes are issued,
`icbpt * ibs == ocbpt * obs + partial_write_bytes`. -/
def write_inv (op : OptsT) (csp : CpStateT) : Prop :=
  csp.icbpt * op.ibs = csp.ocbpt * op.obs + csp.partial_write_bytes

instance (op : OptsT) (csp : CpStateT) : Decidable (write_inv op csp) := by
  unfold write_inv; infer_instance

/-- Concrete options refuting C1's original universal claim: a legal
invocation (`(ibs*bpt) mod obs = 512*4 mod 1024 = 0`, so
`cl_sanity_defaults` accepts it) whose final short chunk is a single
512-byte input block, planned against 1024-byte output blocks. -/
def c1_op : OptsT :=
  { ibs := 512, obs := 1024, ibs_pi := 512, obs_pi := 1024,
    bpt_i := 4, dd_count := 1 }

/-- The sparse level of the options `cl_sanity_defaults` accepts (`none`
when it rejects). -/
def cl_result_sparse (op : OptsT) : Option Nat :=
  match cl_sanity_defaults op with
  | .ok o => some o.oflag.sparse
  | .error _ => none

/-- Concrete resume invocation for C5: `bs=512`, `bpt=4`, `count=2`,
`oflag=resume`, regular output already holding 2 blocks. -/
def c5_op : OptsT :=
  { ibs := 512, obs := 512, ibs_pi := 512, obs_pi := 512, bpt_i := 4,
    dd_count := 2, oflag := { resume := 1 }, out_type := FT_REG,
    in_type := FT_BLOCK }

/-- A run of write phases over a list of chunks (each chunk being the
state at the write section with its skip decisions and call results),
accumulating the statistics: used to state that a whole copy to dev-null
reports zero full records out. -/
def write_phase_fold (op : OptsT) (chunks : List (CpStateT × Bool × Bool × IterEnv)) :
    OptsT :=
  chunks.foldl (fun o c => (write_dispatch o c.1 c.2.1 c.2.2.1 c.2.2.2).opst) op

/-- A concrete option state for C2: `bs=512`, `iflag=coe`,
`coe_limit=K`. -/
def c2_op (K : Nat) : OptsT :=
  { ibs := 512, obs := 512, ibs_pi := 512, obs_pi := 512, coe_limit := K,
    iflag := { coe := 1 } }

/-- A concrete option state for C3: `bs=512`, `iflag=coe`, `coe_limit=2`
with one unrecovered error already counted (`coe_count = 1`). -/
def c3_op : OptsT :=
  { ibs := 512, obs := 512, ibs_pi := 512, obs_pi := 512, coe_limit := 2,
    coe_count := 1, iflag := { coe := 1 } }

/-! ## The claims -/

/-- C7: for every invocation with `ibs != obs` and `(ibs*bpt) mod obs != 0`
(with `bpt` the value the planner uses: the user's when given, otherwise
`default_bpt_i ibs`), the program rejects the arguments with a
syntax-error result before opening files or starting the copy, so no read
or write is performed (`MainStage.early_exit` is `main` returning at
ddpt.c:3561-3565, before `open_if` / `open_of` / `do_copy`). -/
theorem c7_alignment_reject (op : OptsT)
    (h1 : op.ibs ≠ 0) (h2 : op.obs ≠ 0) (h3 : op.ibs ≠ op.obs)
    (h4 : op.ibs * (if op.bpt_given then op.bpt_i else default_bpt_i op.ibs) % op.obs ≠ 0) :
    main_after_cl op = .early_exit SG_LIB_SYNTAX_ERROR := by
  cases hb : op.bpt_given
  · simp only [hb, Bool.false_eq_true, if_false] at h4
    simp [main_after_cl, cl_sanity_defaults, h1, h2, h3, h4, hb]
  · simp only [hb, if_true] at h4
    simp [main_after_cl, cl_sanity_defaults, h1, h2, h3, h4, hb]

/-- Witness for C7 at a concrete invocation: `ibs=512`, `obs=1024`,
`bpt=5` (given), so `ibs*bpt mod obs = 512 ≠ 0`. -/
theorem c7_witness :
    main_after_cl { ibs := 512, obs := 1024, bpt_i := 5, bpt_given := true } =
      .early_exit SG_LIB_SYNTAX_ERROR :=
  c7_alignment_reject _ (by decide) (by decide) (by decide) (by decide)

/-- C10: requesting trim/unmap (`wsame16`, ddpt.c:751-753) adds 2 to the
sparse level, and `strunc` with sparse off raises it to 1
(ddpt.c:885-888); consequently such an invocation follows the sparse
zero-comparison path of the copy loop (guarded by `oflag.sparse ≠ 0`,
ddpt.c:3336) even though the user never set `oflag=sparse`.  The first
two conjuncts compute the accepted sparse level for an otherwise plain
invocation; the third shows an all-zeros chunk is then detected and
counted sparse. -/
theorem c10_flag_promotion :
    (∀ op : OptsT, op.ibs = op.obs → op.ibs ≠ 0 → op.obs ≠ 0 → op.skip = 0 →
      op.seek = 0 → op.bpt_given = true → 1 ≤ op.bpt_i → op.oflag.trunc = 0 →
      op.iflag.self = 0 → op.oflag.self = 0 →
      op.oflag.wsame16 ≠ 0 →
      cl_result_sparse op = some (op.oflag.sparse + 2)) ∧
    (∀ op : OptsT, op.ibs = op.obs → op.ibs ≠ 0 → op.obs ≠ 0 → op.skip = 0 →
      op.seek = 0 → op.bpt_given = true → 1 ≤ op.bpt_i → op.oflag.trunc = 0 →
      op.iflag.self = 0 → op.oflag.self = 0 →
      op.oflag.wsame16 = 0 → op.oflag.strunc ≠ 0 → op.oflag.sparse = 0 →
      cl_result_sparse op = some 1) ∧
    (∀ (op : OptsT) (csp : CpStateT) (wrk wrk2 zeros : List Nat) (env : IterEnv),
      op.oflag.sparse ≠ 0 →
      memcmp_eq wrk zeros 0 (csp.ocbpt * op.obs + csp.partial_write_bytes) = true →
      (sparse_sparing_write op csp wrk wrk2 zeros env).opst.out_sparse =
        op.out_sparse + csp.ocbpt) := by
  refine ⟨?_, ?_, ?_⟩
  · intro op he hn hn2 hsk hse hb h1 ht his hos hw
    have hm : op.ibs * op.bpt_i % op.obs = 0 := by
      rw [he]; exact Nat.mul_mod_right op.obs op.bpt_i
    have hb1 : ¬ op.bpt_i < 1 := by omega
    simp [cl_result_sparse, cl_sanity_defaults, he, hn, hn2, hsk, hse, hb, hb1, ht,
      his, hos, hw, hm]
  · intro op he hn hn2 hsk hse hb h1 ht his hos hw hst hsp
    have hm : op.ibs * op.bpt_i % op.obs = 0 := by
      rw [he]; exact Nat.mul_mod_right op.obs op.bpt_i
    have hb1 : ¬ op.bpt_i < 1 := by omega
    simp [cl_result_sparse, cl_sanity_defaults, he, hn, hn2, hsk, hse, hb, hb1, ht,
      his, hos, hw, hst, hsp, hm]
  · intro op csp wrk wrk2 zeros env hsp hz
    by_cases hw : op.oflag.wsame16 ≠ 0 ∧ op.out_type &&& FT_PT ≠ 0 <;>
      by_cases he : env.ws16 ≠ 0 <;>
      by_cases hp : csp.partial_write_bytes > 0 <;>
      simp [sparse_sparing_write, write_dispatch, hsp, hz, hw, he, hp, IterOut.opst]

/-- Witness for C10: `oflag=trim` alone yields sparse level 2,
`oflag=strunc` alone yields sparse level 1, and a zero chunk under
sparse bumps `out_sparse` by `ocbpt`. -/
theorem c10_witness :
    cl_result_sparse { ibs := 512, obs := 512, bpt_given := true, bpt_i := 128,
                       oflag := { wsame16 := 1 } } = some 2 ∧
    cl_result_sparse { ibs := 512, obs := 512, bpt_given := true, bpt_i := 128,
                       oflag := { strunc := 1 } } = some 1 ∧
    (sparse_sparing_write { obs := 4, oflag := { sparse := 2 } } { ocbpt := 1 }
        (List.replicate 4 0) [] (List.replicate 4 0) {}).opst.out_sparse = 1 :=
  ⟨c10_flag_promotion.1 _ (by decide) (by decide) (by decide) (by decide) (by decide)
      (by decide) (by decide) (by decide) (by decide) (by decide) (by decide),
   c10_flag_promotion.2.1 _ (by decide) (by decide) (by decide) (by decide) (by decide)
      (by decide) (by decide) (by decide) (by decide) (by decide) (by decide) (by decide)
      (by decide),
   c10_flag_promotion.2.2 _ _ _ _ _ _ (by decide) (by decide)⟩

/-- C9's counterexample: `open_errblk` opens the journal with `fopen`
mode `"a"` (ddpt.c:560), which does not truncate: previously recorded
content survives the open, so "truncates the journal file for appending"
is false. -/
theorem c9_counterexample :
    fopen_truncates open_errblk_mode = false ∧
    open_errblk ["0xdead"] "2013-05-08 12:00:00" =
      ["0xdead", "# start: 2013-05-08 12:00:00"] ∧
    open_errblk ["0xdead"] "2013-05-08 12:00:00" ≠
      ["# start: 2013-05-08 12:00:00"] := by
  refine ⟨rfl, rfl, by decide⟩

/-- C9 as amended: opening the journal opens it for append without
truncating (prior lines are preserved) and writes a `# start:` comment
line; `record(lba)` appends one `0x%lx` line; `record_range(lba, n)` with
`n > 1` appends one `0x%lx-0x%lx` line whose upper bound is
`lba + n - 1`, and with `n == 1` a single-LBA line. -/
theorem c9_amended_journal (prev : List String) (ts : String) (lba : Nat)
    (n : Int) (js : List String) :
    open_errblk prev ts = prev ++ ["# start: " ++ ts] ∧
    put_errblk lba (some js) = some (js ++ [hex_lba lba]) ∧
    (1 < n →
      put_range_errblk lba n (some js) =
        some (js ++ [hex_lba lba ++ "-" ++ hex_lba (lba + (n - 1).toNat)])) ∧
    (n = 1 → put_range_errblk lba n (some js) = some (js ++ [hex_lba lba])) := by
  refine ⟨rfl, rfl, ?_, ?_⟩
  · intro h
    have h1 : ¬ (n = 1) := by omega
    simp [put_range_errblk, h, h1]
  · intro h
    simp [put_range_errblk, h, put_errblk]

/-- Witness for C9's amended statement: a journal holding one line gets
the start line appended, a range of 4 blocks at LBA 10 is rendered
`0xa-0xd`, and a range of 1 block as `0xa`. -/
theorem c9_witness :
    open_errblk ["0x5"] "T" = ["0x5", "# start: T"] ∧
    put_errblk 10 (some []) = some ["0xa"] ∧
    put_range_errblk 10 4 (some []) = some ["0xa-0xd"] ∧
    put_range_errblk 10 1 (some []) = some ["0xa"] := by
  have h := c9_amended_journal ["0x5"] "T" 10 4 []
  have h1 := c9_amended_journal [] "T" 10 4 []
  have h2 := c9_amended_journal [] "T" 10 1 []
  exact ⟨h.1, h1.2.1, by simpa using h1.2.2.1 (by decide), h2.2.2.2 rfl⟩

/-- C5's counterexample: with `oflag=resume`, a regular output of 2
blocks and a planned count of 2, the un-aligned prefix (2 blocks) covers
the count, `count_calculate` prints "resume finds copy complete" and
returns `-1` (ddpt.c:3242-3245) — but `main` maps a negative `ret` to
`SG_LIB_CAT_OTHER` (ddpt.c:4064), so the process exit status is 99, not
the success status 0 the claim states. -/
theorem c5_counterexample :
    (count_calculate c5_op 0 100 2).1 = -1 ∧
    (count_calculate c5_op 0 100 2).2.dd_count = 0 ∧
    main_exit_of_ret (count_calculate c5_op 0 100 2).1 = (SG_LIB_CAT_OTHER : Nat) ∧
    main_exit_of_ret (count_calculate c5_op 0 100 2).1 ≠ 0 := by
  decide

/-- C5 as amended: with `oflag=resume` and a regular output of known
size, the already-copied prefix is `(out_size - seek*obs) / ibs` input
blocks; if this un-aligned prefix covers the planned count the program
prints the copy-complete message and bypasses the copy, exiting with the
generic `SG_LIB_CAT_OTHER` error status (not 0); otherwise the prefix is
aligned down to a multiple of `bpt`, `skip` and `seek` advance by the
aligned amount (in their own block units) and `dd_count` shrinks by it. -/
theorem c5_amended_resume (op : OptsT) (inn outn : Int)
    (hres : op.oflag.resume ≠ 0) (hreg : op.out_type = FT_REG)
    (houtn : 0 ≤ outn) (hcount : 0 < op.dd_count)
    (hskip : ¬ (op.skip ≠ 0 ∧ op.in_type = FT_REG ∧ op.skip > inn))
    (hseek : op.seek < outn) :
    ((outn * (op.obs : Int) - op.seek * (op.obs : Int)) / (op.ibs : Int) ≥ op.dd_count →
      count_calculate op 0 inn outn = (-1, { op with dd_count := 0 }) ∧
      main_exit_of_ret (count_calculate op 0 inn outn).1 = (SG_LIB_CAT_OTHER : Nat)) ∧
    ((outn * (op.obs : Int) - op.seek * (op.obs : Int)) / (op.ibs : Int) < op.dd_count →
      count_calculate op 0 inn outn =
        (0, { op with
                skip := op.skip +
                  (outn * (op.obs : Int) - op.seek * (op.obs : Int)) / (op.ibs : Int) /
                    (op.bpt_i : Int) * (op.bpt_i : Int),
                seek := op.seek +
                  (outn * (op.obs : Int) - op.seek * (op.obs : Int)) / (op.ibs : Int) /
                    (op.bpt_i : Int) * (op.bpt_i : Int) * (op.ibs : Int) / (op.obs : Int),
                dd_count := op.dd_count -
                  (outn * (op.obs : Int) - op.seek * (op.obs : Int)) / (op.ibs : Int) /
                    (op.bpt_i : Int) * (op.bpt_i : Int) })) := by
  have hob : (op.obs : Int) * (outn - op.seek) =
      outn * (op.obs : Int) - op.seek * (op.obs : Int) := by ring
  have hd : ¬ op.dd_count < 0 := by omega
  have hns : ¬ outn ≤ op.seek := by omega
  constructor
  · intro hge
    have heq : count_calculate op 0 inn outn = (-1, { op with dd_count := 0 }) := by
      simp [count_calculate, hres, hreg, houtn, hd, hns, hskip, hcount, hob,
        ge_iff_le.mp hge]
    refine ⟨heq, ?_⟩
    rw [heq]
    norm_num [main_exit_of_ret, SG_LIB_CAT_OTHER]
  · intro hlt
    have hcond : ¬ op.dd_count ≤
        (outn * (op.obs : Int) - op.seek * (op.obs : Int)) / (op.ibs : Int) :=
      not_le.mpr hlt
    simp [count_calculate, hres, hreg, houtn, hd, hns, hskip, hcount, hob, hcond]

/-- Witness for C5's amended statement at concrete inputs: the complete
branch (output already holds the 2 planned blocks → exit 99) and the
partial branch (`count=10`, output holds 6 blocks → aligned prefix 4,
`skip=seek=4`, `dd_count=6`). -/
theorem c5_witness :
    (count_calculate c5_op 0 100 2 = (-1, { c5_op with dd_count := 0 }) ∧
      main_exit_of_ret (count_calculate c5_op 0 100 2).1 = (SG_LIB_CAT_OTHER : Nat)) ∧
    count_calculate { c5_op with dd_count := 10 } 0 100 6 =
      (0, { c5_op with dd_count := 6, skip := 4, seek := 4 }) := by
  refine ⟨(c5_amended_resume c5_op 100 2 (by decide) (by decide) (by decide)
      (by decide) (by decide) (by decide)).1 (by decide), ?_⟩
  have h := (c5_amended_resume { c5_op with dd_count := 10 } 100 6 (by decide)
      (by decide) (by decide) (by decide) (by decide) (by decide)).2 (by decide)
  rw [h]; decide

/-- Per-chunk helper for C8: the write phase for a dev-null output. -/
theorem write_dispatch_dev_null (op : OptsT) (csp : CpStateT) (s1 s2 : Bool)
    (env : IterEnv) (h : op.out_type = FT_DEV_NULL) :
    (write_dispatch op csp s1 s2 env).acts = [] ∧
    (write_dispatch op csp s1 s2 env).opst.out_full = op.out_full ∧
    (write_dispatch op csp s1 s2 env).opst.out_type = op.out_type ∧
    (write_dispatch op csp s1 s2 env).isWrote = true := by
  rcases s1 <;> rcases s2 <;>
    by_cases hp : csp.partial_write_bytes > 0 <;>
    simp [write_dispatch, h, hp, FT_PT, FT_DEV_NULL, IterOut.acts, IterOut.opst,
      IterOut.isWrote, (show (8 : Nat) &&& 2 = 0 from rfl),
      (show (8 : Nat) &&& 8 = 8 from rfl)]

/-- C8: when the output is dev-null, the write phase performs no write
call and `out_full` is not incremented (ddpt.c:3386-3387), for every
chunk and however many chunks the copy runs: after a copy to dev-null the
output counters report the same `out_full` the copy started with (zero,
per `main`'s initialisation). -/
theorem c8_dev_null :
    (∀ (op : OptsT) (csp : CpStateT) (s1 s2 : Bool) (env : IterEnv),
      op.out_type = FT_DEV_NULL →
      (write_dispatch op csp s1 s2 env).acts = [] ∧
      (write_dispatch op csp s1 s2 env).opst.out_full = op.out_full) ∧
    (∀ (op : OptsT) (chunks : List (CpStateT × Bool × Bool × IterEnv)),
      op.out_type = FT_DEV_NULL →
      (write_phase_fold op chunks).out_full = op.out_full) := by
  refine ⟨fun op csp s1 s2 env h => ⟨(write_dispatch_dev_null op csp s1 s2 env h).1,
    (write_dispatch_dev_null op csp s1 s2 env h).2.1⟩, fun op chunks => ?_⟩
  induction chunks generalizing op with
  | nil => intro _; rfl
  | cons c rest ih =>
    intro h
    have hd := write_dispatch_dev_null op c.1 c.2.1 c.2.2.1 c.2.2.2 h
    calc (write_phase_fold op (c :: rest)).out_full
        = (write_phase_fold (write_dispatch op c.1 c.2.1 c.2.2.1 c.2.2.2).opst
            rest).out_full := rfl
      _ = (write_dispatch op c.1 c.2.1 c.2.2.1 c.2.2.2).opst.out_full :=
          ih _ (by rw [hd.2.2.1, h])
      _ = op.out_full := hd.2.1

/-- Witness for C8 at a concrete copy: two chunks to a dev-null output
leave `out_full` at 0 and issue no write. -/
theorem c8_witness :
    (write_dispatch { out_type := FT_DEV_NULL, in_full := 57 } { ocbpt := 4 }
      false false {}).acts = [] ∧
    (write_phase_fold { out_type := FT_DEV_NULL, in_full := 57 }
      [({ ocbpt := 4 }, false, false, {}), ({ ocbpt := 2 }, true, false, {})]).out_full
      = 0 :=
  ⟨(c8_dev_null.1 _ _ _ _ _ rfl).1, c8_dev_null.2 _ _ rfl⟩

/-- C6: a short tape read (`0 < res < icbpt*ibs`) sets `leave_reason` to
`REASON_TAPE_SHORT_READ` with `leave_after_write` pending
(ddpt.c:2493-2503), and this reason — uniquely among leave reasons —
does not terminate the copy loop: after the write phase,
`partial_write_bytes` and `leave_after_write` are cleared and the loop
continues (ddpt.c:3404-3407), while any other pending `leave_reason`
ends the loop returning that reason (ddpt.c:3408-3412). -/
theorem c6_tape_short_read :
    (∀ (op : OptsT) (csp : CpStateT) (res : Int),
      0 < res → res < (csp.icbpt * op.ibs : Int) →
      (cp_read_tape op csp res).isOk = true ∧
      (cp_read_tape op csp res).cspst.leave_reason = REASON_TAPE_SHORT_READ ∧
      (cp_read_tape op csp res).cspst.leave_after_write = csp.leave_after_write + 1) ∧
    (∀ (op : OptsT) (csp : CpStateT),
      csp.leave_after_write ≠ 0 → csp.leave_reason = REASON_TAPE_SHORT_READ →
      (post_write_bookkeeping op csp).1 = none ∧
      (post_write_bookkeeping op csp).2.2.partial_write_bytes = 0 ∧
      (post_write_bookkeeping op csp).2.2.leave_after_write = 0) ∧
    (∀ (op : OptsT) (csp : CpStateT),
      csp.leave_after_write ≠ 0 → csp.leave_reason ≠ REASON_TAPE_SHORT_READ →
      (post_write_bookkeeping op csp).1 = some csp.leave_reason) := by
  refine ⟨fun op csp res h0 hlt => ?_, fun op csp h1 h2 => ?_, fun op csp h1 h2 => ?_⟩
  · have hneg : ¬ res < 0 := by omega
    by_cases hm : res.toNat % op.ibs > 0 <;>
      simp [cp_read_tape, hneg, hlt, hm, ReadOut.isOk, ReadOut.cspst,
        apply_ite OptsT.ibs, apply_ite OptsT.obs]
  · by_cases hd : op.dd_count > 0 <;>
      simp [post_write_bookkeeping, hd, h1, h2]
  · by_cases hd : op.dd_count > 0 <;>
      simp [post_write_bookkeeping, hd, h1, h2]

/-- Witness for C6: a tape chunk of 4×512 bytes answered with 700 bytes
leaves with `REASON_TAPE_SHORT_READ` pending, whose bookkeeping clears
the pending state and continues, while a pending `SG_LIB_CAT_OTHER`
ends the loop with that code. -/
theorem c6_witness :
    (cp_read_tape { ibs := 512, obs := 512 } { icbpt := 4 } 700).cspst.leave_reason =
      REASON_TAPE_SHORT_READ ∧
    (post_write_bookkeeping { ibs := 512 }
      { leave_after_write := 1, leave_reason := REASON_TAPE_SHORT_READ,
        partial_write_bytes := 188 }).1 = none ∧
    (post_write_bookkeeping { ibs := 512 }
      { leave_after_write := 1, leave_reason := SG_LIB_CAT_OTHER }).1 =
      some SG_LIB_CAT_OTHER :=
  ⟨(c6_tape_short_read.1 _ _ 700 (by decide) (by decide)).2.1,
   (c6_tape_short_read.2.1 _ _ (by decide) (by decide)).1,
   c6_tape_short_read.2.2 _ _ (by decide) (by decide)⟩

/-- C4: with sparse output enabled, a chunk whose payload
(`ocbpt*obs + partial_write_bytes` bytes) compares equal to the zeros
buffer is not written: the only command that may be issued for it is the
WRITE SAME trim when `wsame16` is set on a pass-through output
(ddpt.c:3340-3345); `out_sparse` grows by `ocbpt` and
`out_sparse_partial` by one exactly when `partial_write_bytes > 0`
(ddpt.c:3378-3381), and `out_full` is untouched. -/
theorem c4_sparse_skip (op : OptsT) (csp : CpStateT) (wrk wrk2 zeros : List Nat)
    (env : IterEnv) (hsp : op.oflag.sparse ≠ 0)
    (hz : memcmp_eq wrk zeros 0 (csp.ocbpt * op.obs + csp.partial_write_bytes) = true) :
    (sparse_sparing_write op csp wrk wrk2 zeros env).isWrote = true ∧
    (sparse_sparing_write op csp wrk wrk2 zeros env).acts =
      (if op.oflag.wsame16 ≠ 0 ∧ op.out_type &&& FT_PT ≠ 0 then
        [Action.ptWriteSame16 csp.ocbpt op.seek] else []) ∧
    (sparse_sparing_write op csp wrk wrk2 zeros env).opst.out_sparse =
      op.out_sparse + csp.ocbpt ∧
    (sparse_sparing_write op csp wrk wrk2 zeros env).opst.out_sparse_partial =
      op.out_sparse_partial + (if csp.partial_write_bytes > 0 then 1 else 0) ∧
    (sparse_sparing_write op csp wrk wrk2 zeros env).opst.out_full = op.out_full := by
  by_cases hw : op.oflag.wsame16 ≠ 0 ∧ op.out_type &&& FT_PT ≠ 0 <;>
    by_cases he : env.ws16 ≠ 0 <;>
    by_cases hp : csp.partial_write_bytes > 0 <;>
    simp [sparse_sparing_write, write_dispatch, hsp, hz, hw, he, hp, IterOut.acts,
      IterOut.opst, IterOut.isWrote]

/-- Witness for C4: an all-zeros chunk of 2 blocks plus a 1-byte residual
on a pass-through output with `wsame16` issues exactly one WRITE SAME
trim, counts 2 sparse blocks and 1 sparse partial. -/
theorem c4_witness :
    (sparse_sparing_write
        { obs := 4, oflag := { sparse := 3, wsame16 := 1 }, out_type := FT_PT }
        { ocbpt := 2, partial_write_bytes := 1 }
        (List.replicate 9 0) [] (List.replicate 9 0) {}).acts =
      [Action.ptWriteSame16 2 0] ∧
    (sparse_sparing_write
        { obs := 4, oflag := { sparse := 3, wsame16 := 1 }, out_type := FT_PT }
        { ocbpt := 2, partial_write_bytes := 1 }
        (List.replicate 9 0) [] (List.replicate 9 0) {}).opst.out_sparse = 2 ∧
    (sparse_sparing_write
        { obs := 4, oflag := { sparse := 3, wsame16 := 1 }, out_type := FT_PT }
        { ocbpt := 2, partial_write_bytes := 1 }
        (List.replicate 9 0) [] (List.replicate 9 0) {}).opst.out_sparse_partial = 1 := by
  have h := c4_sparse_skip
      { obs := 4, oflag := { sparse := 3, wsame16 := 1 }, out_type := FT_PT }
      { ocbpt := 2, partial_write_bytes := 1 }
      (List.replicate 9 0) [] (List.replicate 9 0) {} (by decide) (by decide)
  refine ⟨?_, ?_, ?_⟩
  · rw [h.2.1]; decide
  · rw [h.2.2.1]; decide
  · rw [h.2.2.2.1]; decide

/-- Behaviour of `coe_process_eio` under an active `coe_limit`: the call
that takes `coe_count` past the limit returns `MEDIUM_HARD`; below the
limit it returns 0, counts the error and bumps `coe_count`. -/
theorem coe_eio_process_spec (op : OptsT) (ms : Int) (h1 : 0 < op.coe_limit) :
    (op.coe_limit < op.coe_count + 1 →
      coe_eio_process op ms =
        (SG_LIB_CAT_MEDIUM_HARD, { op with coe_count := op.coe_count + 1 })) ∧
    (op.coe_count + 1 ≤ op.coe_limit →
      (coe_eio_process op ms).1 = 0 ∧
      (coe_eio_process op ms).2.coe_count = op.coe_count + 1 ∧
      (coe_eio_process op ms).2.coe_limit = op.coe_limit ∧
      (coe_eio_process op ms).2.unrecovered_errs = op.unrecovered_errs + 1 ∧
      (coe_eio_process op ms).2.ibs_pi = op.ibs_pi ∧
      OptsT.in_partial (coe_eio_process op ms).2 = op.in_partial + 1 ∧
      (coe_eio_process op ms).2.in_full = op.in_full - 1) := by
  constructor
  · intro h2
    simp [coe_eio_process, h1, h2]
  · intro h2
    have hno : ¬ (0 < op.coe_limit ∧ op.coe_limit < op.coe_count + 1) := by omega
    simp only [coe_eio_process, if_pos h1]
    rw [if_neg (by simpa using hno)]
    simp [apply_ite OptsT.coe_count, apply_ite OptsT.coe_limit,
      apply_ite OptsT.unrecovered_errs, apply_ite OptsT.ibs_pi,
      apply_ite OptsT.in_partial, apply_ite OptsT.in_full]

/-- One failing (`EIO`) single-block read in the recovery loop: fatal
`MEDIUM_HARD` exactly when `coe_count` would pass the limit, otherwise a
zero-filled block that is counted and continues. -/
theorem coe_one_block_eio (op : OptsT) (csp : CpStateT) (ms : Int)
    (h1 : 0 < op.coe_limit) :
    (op.coe_limit < op.coe_count + 1 →
      coe_one_block op csp ms true (-Eio) =
        .fatal SG_LIB_CAT_MEDIUM_HARD { op with coe_count := op.coe_count + 1 }) ∧
    (op.coe_count + 1 ≤ op.coe_limit →
      ∃ op' csp', coe_one_block op csp ms true (-Eio) = .next op' csp' ∧
        op'.coe_count = op.coe_count + 1 ∧ op'.coe_limit = op.coe_limit ∧
        op'.unrecovered_errs = op.unrecovered_errs + 1 ∧ op'.ibs_pi = op.ibs_pi) := by
  have e0 : ¬ ((-Eio : Int) = 0) := by decide
  have e1 : (-Eio : Int) < 0 := by decide
  constructor
  · intro h2
    have hp := (coe_eio_process_spec op ms h1).1 h2
    simp [coe_one_block, e0, e1, hp, SG_LIB_CAT_MEDIUM_HARD]
  · intro h2
    have hp := (coe_eio_process_spec op ms h1).2 h2
    rcases hq : coe_eio_process op ms with ⟨r, op2⟩
    rw [hq] at hp
    simp only at hp
    obtain ⟨hr, hc, hl, hu, hi, _, _⟩ := hp
    subst hr
    by_cases hof : ms * (op.ibs_pi : Int) ≠ csp.if_filepos
    · refine ⟨op2, { csp with if_filepos := ms * (op.ibs_pi : Int) }, ?_, hc, hl, hu, hi⟩
      simp [coe_one_block, e0, e1, hq, hof]
    · refine ⟨op2, csp, ?_, hc, hl, hu, hi⟩
      simp [coe_one_block, e0, e1, hq, hof]

/-- The whole recovery loop when every remaining single-block read fails
with `EIO`: with `rem` blocks left, the loop completes (returning 0 after
zero-filling and counting all of them) when `coe_count + rem` stays
within the limit, and aborts with `MEDIUM_HARD` at the block that passes
the limit. -/
theorem coe_loop_all_eio (K : Nat) (hK : 0 < K) :
    ∀ (rem : Nat) (op : OptsT) (csp : CpStateT) (k : Nat) (ms : Int) (i : Nat),
      op.coe_limit = K →
      (op.coe_count + rem ≤ K →
        ∃ op' csp',
          coe_loop op csp rem k ms (fun _ => -Eio) (fun _ => true) i = .done op' csp' ∧
          op'.coe_count = op.coe_count + rem ∧
          op'.unrecovered_errs = op.unrecovered_errs + rem) ∧
      (op.coe_count ≤ K → K < op.coe_count + rem →
        ∃ op',
          coe_loop op csp rem k ms (fun _ => -Eio) (fun _ => true) i =
            .fatal SG_LIB_CAT_MEDIUM_HARD op' ∧
          op'.coe_count = K + 1) := by
  intro rem
  induction rem with
  | zero =>
    intro op csp k ms i hl
    exact ⟨fun _ => ⟨op, csp, rfl, rfl, rfl⟩, fun h1 h2 => absurd h2 (by omega)⟩
  | succ rem ih =>
    intro op csp k ms i hl
    have h1 : 0 < op.coe_limit := by omega
    by_cases hc : op.coe_count + 1 ≤ op.coe_limit
    · obtain ⟨op2, csp2, hstep, hcc, hll, huu, hii⟩ :=
        (coe_one_block_eio op csp ms h1).2 hc
      have ihs := ih { op2 with in_full := op2.in_full + 1 }
        { csp2 with bytes_read := csp2.bytes_read + op2.ibs_pi }
        (k + 1) (ms + 1) (i + 1) (by simpa [hll] using hl)
      constructor
      · intro hle
        obtain ⟨op', csp', hrun, hc', hu'⟩ := ihs.1 (by simp [hcc]; omega)
        refine ⟨op', csp', ?_, by simp [hc', hcc]; omega, by simp [hu', huu]; omega⟩
        simpa [coe_loop, hstep] using hrun
      · intro hle hgt
        obtain ⟨op', hrun, hc'⟩ := ihs.2 (by simp [hcc]; omega) (by simp [hcc]; omega)
        refine ⟨op', ?_, hc'⟩
        simpa [coe_loop, hstep] using hrun
    · have hstep := (coe_one_block_eio op csp ms h1).1 (by omega)
      constructor
      · intro hle
        exact absurd hle (by omega)
      · intro hle hgt
        refine ⟨{ op with coe_count := op.coe_count + 1 }, ?_, by simp; omega⟩
        simp [coe_loop, hstep]

/-- C2's counterexample: with `coe_limit = K = 1`, after exactly K = 1
consecutive unrecovered (zero-filled) single-block reads the engine does
NOT terminate: `coe_cp_read_block_reg` returns 0 (success), having
zero-filled and counted the bad block (`unrecovered_errs = 1`,
`coe_count = 1`), because `coe_process_eio` only fails when `coe_count`
EXCEEDS the limit (ddpt.c:2170). -/
theorem c2_counterexample :
    (coe_cp_read_block_reg (c2_op 1) { icbpt := 1 } (-Eio)
      (fun _ => 0) (fun _ => true)).isOk = true ∧
    (coe_cp_read_block_reg (c2_op 1) { icbpt := 1 } (-Eio)
      (fun _ => 0) (fun _ => true)).code ≠ SG_LIB_CAT_MEDIUM_HARD ∧
    (coe_cp_read_block_reg (c2_op 1) { icbpt := 1 } (-Eio)
      (fun _ => 0) (fun _ => true)).opst.unrecovered_errs = 1 ∧
    (coe_cp_read_block_reg (c2_op 1) { icbpt := 1 } (-Eio)
      (fun _ => 0) (fun _ => true)).opst.coe_count = 1 := by
  decide

/-- C2 as amended: with `coe` active and `coe_limit = K > 0`, starting
from `coe_count = 0`, a run of consecutive unrecovered single-block
reads (every read failing with `EIO`) terminates the chunk's recovery
with `MEDIUM_HARD` on the `(K+1)`-th consecutive failing read, not the
`K`-th: a chunk of `m ≤ K` failing blocks completes with all `m` blocks
zero-filled and counted, while a chunk of `m = K + 1` failing blocks
returns `SG_LIB_CAT_MEDIUM_HARD`. -/
theorem c2_amended_limit (K m : Nat) (op : OptsT) (csp : CpStateT)
    (hK : 0 < K) (hl : op.coe_limit = K) (hc : op.coe_count = 0)
    (hm : csp.icbpt = m) :
    (1 ≤ m → m ≤ K →
      (coe_cp_read_block_reg op csp (-Eio) (fun _ => -Eio) (fun _ => true)).isOk
        = true ∧
      (coe_cp_read_block_reg op csp (-Eio) (fun _ => -Eio)
        (fun _ => true)).opst.coe_count = m ∧
      (coe_cp_read_block_reg op csp (-Eio) (fun _ => -Eio)
        (fun _ => true)).opst.unrecovered_errs = op.unrecovered_errs + m) ∧
    (m = K + 1 →
      (coe_cp_read_block_reg op csp (-Eio) (fun _ => -Eio) (fun _ => true)).isOk
        = false ∧
      (coe_cp_read_block_reg op csp (-Eio) (fun _ => -Eio)
        (fun _ => true)).code = SG_LIB_CAT_MEDIUM_HARD) := by
  subst hm
  have e0 : ¬ ((-Eio : Int) = 0) := by decide
  have e1 : (-Eio : Int) < 0 := by decide
  have h1 : 0 < op.coe_limit := by omega
  constructor
  · intro h1m hmK
    by_cases hm1 : csp.icbpt = 1
    · have hsp := (coe_eio_process_spec op op.skip h1).2 (by omega)
      rcases hq : coe_eio_process op op.skip with ⟨r, op2⟩
      rw [hq] at hsp
      simp only at hsp
      obtain ⟨hr, hcc, -, huu, -, -, -⟩ := hsp
      subst hr
      simp [coe_cp_read_block_reg, e0, e1, hm1, hq, ReadOut.isOk, ReadOut.opst,
        hcc, huu, hc]
    · obtain ⟨op', csp', hrun, hc', hu'⟩ :=
        ((coe_loop_all_eio K hK csp.icbpt op { csp with bytes_read := 0 } 0
          op.skip 0 hl).1 (by omega))
      simp [coe_cp_read_block_reg, e0, e1, hm1, Nat.zero_div, hrun,
        ReadOut.isOk, ReadOut.opst, hc', hu', hc]
  · intro hmm
    have hm1 : ¬ csp.icbpt = 1 := by omega
    obtain ⟨op', hrun, hc'⟩ :=
      ((coe_loop_all_eio K hK csp.icbpt op { csp with bytes_read := 0 } 0
        op.skip 0 hl).2 (by omega) (by omega))
    simp [coe_cp_read_block_reg, e0, e1, hm1, Nat.zero_div, hrun, ReadOut.isOk,
      ReadOut.code]

/-- Witness for C2's amended statement at `K = 2`: a chunk of 2 failing
blocks completes with both zero-filled, a chunk of 3 failing blocks
terminates with `MEDIUM_HARD`. -/
theorem c2_witness :
    ((coe_cp_read_block_reg (c2_op 2) { icbpt := 2 } (-Eio) (fun _ => -Eio)
        (fun _ => true)).isOk = true ∧
      (coe_cp_read_block_reg (c2_op 2) { icbpt := 2 } (-Eio) (fun _ => -Eio)
        (fun _ => true)).opst.coe_count = 2) ∧
    ((coe_cp_read_block_reg (c2_op 2) { icbpt := 3 } (-Eio) (fun _ => -Eio)
        (fun _ => true)).isOk = false ∧
      (coe_cp_read_block_reg (c2_op 2) { icbpt := 3 } (-Eio) (fun _ => -Eio)
        (fun _ => true)).code = SG_LIB_CAT_MEDIUM_HARD) := by
  have h2 := (c2_amended_limit 2 2 (c2_op 2) { icbpt := 2 } (by decide) (by decide)
    (by decide) (by decide)).1 (by decide) (by decide)
  have h3 := (c2_amended_limit 2 3 (c2_op 2) { icbpt := 3 } (by decide) (by decide)
    (by decide) (by decide)).2 (by decide)
  exact ⟨⟨h2.1, h2.2.1⟩, h3⟩

/-- C3's counterexample: a bulk chunk read that succeeds in full (returns
all `4 * 512` requested bytes, with `coe_limit > 0` in force) does NOT
reset `coe_count`: `cp_read_block_reg`'s full-success path
(ddpt.c:2418-2421) never calls `zero_coe_limit_count`, so `coe_count`
stays at 1 after a read that returned the requested data without
error, refuting "coe_count == 0 after any successful read". -/
theorem c3_counterexample :
    (cp_read_block_reg c3_op { icbpt := 4 } true 2048 0 (fun _ => 0)
      (fun _ => true)).isOk = true ∧
    (cp_read_block_reg c3_op { icbpt := 4 } true 2048 0 (fun _ => 0)
      (fun _ => true)).cspst.bytes_read = 2048 ∧
    (cp_read_block_reg c3_op { icbpt := 4 } true 2048 0 (fun _ => 0)
      (fun _ => true)).opst.coe_count = 1 ∧
    (cp_read_block_reg c3_op { icbpt := 4 } true 2048 0 (fun _ => 0)
      (fun _ => true)).opst.coe_count ≠ 0 := by
  decide

/-- C3 as amended: when `coe_limit > 0`, `coe_count` is reset to zero by
`zero_coe_limit_count`, which runs on every successful single-block read
in the coe fallback (ddpt.c:2276) and on the whole blocks delivered
before the failure of a short bulk read (ddpt.c:2230-2233) — but a bulk
chunk read that succeeds completely bypasses the coe path and leaves
`coe_count` unchanged. -/
theorem c3_amended_reset :
    (∀ op : OptsT, 0 < op.coe_limit → (zero_coe_limit_count op).coe_count = 0) ∧
    (∀ (op : OptsT) (csp : CpStateT) (ms : Int), 0 < op.coe_limit →
      0 < op.ibs_pi →
      ∃ op' csp',
        coe_one_block op csp ms true ((op.ibs_pi : Nat) : Int) = .next op' csp' ∧
        op'.coe_count = 0) ∧
    (∀ (op : OptsT) (csp : CpStateT) (cr : Nat → Int) (cs : Nat → Bool),
      (cp_read_block_reg op csp true ((csp.icbpt * op.ibs_pi : Nat) : Int) 0
        cr cs).isOk = true ∧
      (cp_read_block_reg op csp true ((csp.icbpt * op.ibs_pi : Nat) : Int) 0
        cr cs).opst.coe_count = op.coe_count) := by
  refine ⟨fun op h => by simp [zero_coe_limit_count, h], ?_, ?_⟩
  · intro op csp ms hK hibs
    have e0 : ¬ (((op.ibs_pi : Nat) : Int) = 0) := by
      simpa using Nat.pos_iff_ne_zero.mp hibs
    have e1 : ¬ (((op.ibs_pi : Nat) : Int) < 0) := by simp
    have e2 : ¬ (((op.ibs_pi : Nat) : Int) < ((op.ibs_pi : Nat) : Int)) := by simp
    by_cases hof : ms * (op.ibs_pi : Int) ≠ csp.if_filepos
    · refine ⟨zero_coe_limit_count op,
        { { csp with if_filepos := ms * (op.ibs_pi : Int) } with
            if_filepos := ms * (op.ibs_pi : Int) + (op.ibs_pi : Int) }, ?_,
        by simp [zero_coe_limit_count, hK]⟩
      simp [coe_one_block, e0, e1, e2, hof]
    · refine ⟨zero_coe_limit_count op,
        { csp with if_filepos := csp.if_filepos + (op.ibs_pi : Int) }, ?_,
        by simp [zero_coe_limit_count, hK]⟩
      simp [coe_one_block, e0, e1, e2, hof]
  · intro op csp cr cs
    have e2 : ¬ ((csp.icbpt : Int) * (op.ibs_pi : Int) < 0) :=
      not_lt.mpr (mul_nonneg (Int.natCast_nonneg _) (Int.natCast_nonneg _))
    by_cases hof : op.skip * (op.ibs_pi : Int) ≠ csp.if_filepos <;>
      simp [cp_read_block_reg, e2, hof, ReadOut.isOk, ReadOut.opst]

/-- Witness for C3's amended statement: a successful single-block read
with `coe_limit = 2`, `coe_count = 1` resets `coe_count` to zero, while
the fully successful bulk read of the counterexample state leaves it
at 1. -/
theorem c3_witness :
    (zero_coe_limit_count c3_op).coe_count = 0 ∧
    (∃ op' csp', coe_one_block c3_op {} 0 true ((c3_op.ibs_pi : Nat) : Int) =
        .next op' csp' ∧ op'.coe_count = 0) ∧
    (cp_read_block_reg c3_op { icbpt := 4 } true
      (((CpStateT.icbpt { icbpt := 4 }) * c3_op.ibs_pi : Nat) : Int) 0
      (fun _ => 0) (fun _ => true)).opst.coe_count = c3_op.coe_count :=
  ⟨c3_amended_reset.1 c3_op (by decide),
   c3_amended_reset.2.1 c3_op {} 0 (by decide) (by decide),
   (c3_amended_reset.2.2 c3_op { icbpt := 4 } (fun _ => 0) (fun _ => true)).2⟩

/-- Decompose a byte count into whole output blocks and a remainder. -/
theorem floor_decomp (b u : Nat) : b / u * u + b % u = b := by
  rw [Nat.mul_comm]
  exact Nat.div_add_mod b u

/-- A byte count equals its whole-block part exactly when it is
block-aligned. -/
theorem div_mul_eq_iff (b u : Nat) (hu : 0 < u) : b / u * u = b ↔ b % u = 0 := by
  constructor
  · intro h
    have hb : b = u * (b / u) := by rw [Nat.mul_comm]; exact h.symm
    exact Nat.mod_eq_zero_of_dvd ⟨b / u, hb⟩
  · intro h
    exact Nat.div_mul_cancel (Nat.dvd_of_mod_eq_zero h)

/-- Rounding the block count up overshoots an unaligned byte count. -/
theorem succ_div_mul_ne (b u : Nat) (hu : 0 < u) (h : b % u ≠ 0) :
    (b / u + 1) * u ≠ b := by
  have h1 : b / u * u + b % u = b := floor_decomp b u
  have h2 : b % u < u := Nat.mod_lt b hu
  have h3 : (b / u + 1) * u = b / u * u + u := by ring
  rw [h3]
  generalize b / u * u = X at h1 ⊢
  omega

/-- The counted input blocks (`icbpt`, final partial block rounded up)
cover the byte count exactly when it is input-block-aligned. -/
theorem ceil_mul_eq_iff (b u : Nat) (hu : 0 < u) :
    (b / u + if 0 < b % u then 1 else 0) * u = b ↔ b % u = 0 := by
  rcases Nat.eq_zero_or_pos (b % u) with h | h
  · simp [h, div_mul_eq_iff b u hu]
  · have hne : b % u ≠ 0 := by omega
    simp only [if_pos h]
    exact ⟨fun heq => absurd heq (succ_div_mul_ne b u hu hne), fun h0 => absurd h0 hne⟩

/-- C1 helper, full planned chunk: under the planner constraint
`(ibs*bpt) mod obs = 0` a full chunk's `icbpt`/`ocbpt` plan satisfies the
write-time invariant (ddpt.c:3300-3302). -/
theorem c1_full_chunk (op : OptsT) (csp0 : CpStateT) (cont : Bool)
    (hal : op.ibs * op.bpt_i % op.obs = 0) (hp : csp0.partial_write_bytes = 0)
    (hd : (op.bpt_i : Int) ≤ op.dd_count ∨ cont = true) :
    write_inv op (plan_chunk op csp0 cont) := by
  have hcond : (op.bpt_i : Int) ≤ op.dd_count ∨ cont = true := hd
  simp only [plan_chunk, ge_iff_le]
  rw [if_pos hcond]
  simp only [write_inv, hp]
  rw [Nat.div_mul_cancel (Nat.dvd_of_mod_eq_zero hal)]
  ring

/-- C1 helper, final short chunk: the planned final chunk of
`dd_count < bpt` blocks satisfies the invariant iff its byte count is a
multiple of `obs`; otherwise `ocbpt` is rounded up for a zero-padded
write (ddpt.c:3303-3311). -/
theorem c1_final_chunk (op : OptsT) (csp0 : CpStateT)
    (ho : 0 < op.obs) (hp : csp0.partial_write_bytes = 0)
    (hd0 : 0 ≤ op.dd_count) (hdlt : op.dd_count < (op.bpt_i : Int)) :
    write_inv op (plan_chunk op csp0 false) ↔
      op.dd_count.toNat * op.ibs % op.obs = 0 := by
  have hcond : ¬ ((op.bpt_i : Int) ≤ op.dd_count ∨ (false : Bool) = true) := by
    simp; omega
  simp only [plan_chunk, ge_iff_le]
  rw [if_neg hcond]
  rcases Nat.eq_zero_or_pos (op.dd_count.toNat * op.ibs % op.obs) with h | h
  · simp [write_inv, h, hp]
    exact (Nat.div_mul_cancel (Nat.dvd_of_mod_eq_zero h)).symm
  · have hne : op.dd_count.toNat * op.ibs % op.obs ≠ 0 := by omega
    simp only [if_pos (by omega : op.dd_count.toNat * op.ibs % op.obs ≠ 0)]
    simp [write_inv, hp, hne]
    exact fun heq => absurd heq.symm (succ_div_mul_ne _ _ ho hne)

/-- C1 helper, fully successful bulk read: `cp_read_block_reg` with a
complete read leaves `icbpt`, `ocbpt` and `partial_write_bytes` as
planned (ddpt.c:2418-2421). -/
theorem c1_full_read (op : OptsT) (csp : CpStateT) (cr : Nat → Int)
    (cs : Nat → Bool) :
    (cp_read_block_reg op csp true ((csp.icbpt * op.ibs_pi : Nat) : Int) 0
      cr cs).isOk = true ∧
    (cp_read_block_reg op csp true ((csp.icbpt * op.ibs_pi : Nat) : Int) 0
      cr cs).cspst.icbpt = csp.icbpt ∧
    (cp_read_block_reg op csp true ((csp.icbpt * op.ibs_pi : Nat) : Int) 0
      cr cs).cspst.ocbpt = csp.ocbpt ∧
    (cp_read_block_reg op csp true ((csp.icbpt * op.ibs_pi : Nat) : Int) 0
      cr cs).cspst.partial_write_bytes = csp.partial_write_bytes := by
  have e2 : ¬ ((csp.icbpt : Int) * (op.ibs_pi : Int) < 0) :=
    not_lt.mpr (mul_nonneg (Int.natCast_nonneg _) (Int.natCast_nonneg _))
  by_cases hof : op.skip * (op.ibs_pi : Int) ≠ csp.if_filepos <;>
    simp [cp_read_block_reg, e2, hof, ReadOut.isOk, ReadOut.cspst]

/-- C1 helper, block/regular short read at EOF (`coe` off, the extra
lurking-EIO read returning 0): the write-side quantities cover exactly
the bytes read, and the invariant holds iff the bytes read form whole
input blocks (ddpt.c:2371-2417). -/
theorem c1_short_eof (op : OptsT) (csp : CpStateT) (res : Int) (cr : Nat → Int)
    (cs : Nat → Bool) (hc : op.iflag.coe = 0) (hpi : op.ibs_pi = op.ibs)
    (hi : 0 < op.ibs) (ho : 0 < op.obs) (h0 : 0 ≤ res)
    (hlt : res < (csp.icbpt : Int) * (op.ibs_pi : Int)) :
    (cp_read_block_reg op csp true res 0 cr cs).isOk = true ∧
    (cp_read_block_reg op csp true res 0 cr cs).cspst.ocbpt * op.obs +
      (cp_read_block_reg op csp true res 0 cr cs).cspst.partial_write_bytes =
      res.toNat ∧
    (write_inv op (cp_read_block_reg op csp true res 0 cr cs).cspst ↔
      res.toNat % op.ibs = 0) := by
  have hneg : ¬ res < 0 := not_lt.mpr h0
  have hnc : ¬ (op.iflag.coe ≠ 0) := by simp [hc]
  have hlt2 : res < (csp.icbpt : Int) * (op.ibs : Int) := by rw [hpi] at hlt; exact hlt
  by_cases hof : op.skip * (op.ibs : Int) ≠ csp.if_filepos <;>
    by_cases hlk : (op.ibs : Int) ≤ res ∧
      res ≤ (csp.icbpt : Int) * (op.ibs : Int) - (op.ibs : Int) <;>
    by_cases hm : 0 < res.toNat % op.ibs <;>
    simp [cp_read_block_reg, hpi, hneg, hnc, hof, hlk, hm, hlt2, write_inv,
      ReadOut.isOk, ReadOut.cspst] <;>
    refine ⟨floor_decomp _ _, ?_⟩ <;>
    rw [floor_decomp] <;>
    first
      | exact ⟨fun heq => absurd heq (succ_div_mul_ne _ _ hi (by omega)),
          fun hz => by omega⟩
      | exact div_mul_eq_iff _ _ hi

/-- C1 helper, pass-through short read: `ocbpt` is rounded down ("don't
do partial writes from pt reads", ddpt.c:2158-2159), so the data beyond
the last whole output block is dropped and the invariant holds iff the
bytes read are a whole number of output blocks. -/
theorem c1_pt_short (op : OptsT) (csp : CpStateT) (blks : Nat)
    (hb : blks < csp.icbpt) (hp : csp.partial_write_bytes = 0)
    (ho : 0 < op.obs) :
    (cp_read_pt op csp 0 blks).isOk = true ∧
    (cp_read_pt op csp 0 blks).cspst.icbpt = blks ∧
    (cp_read_pt op csp 0 blks).cspst.ocbpt * op.obs ≤ blks * op.ibs ∧
    (write_inv op (cp_read_pt op csp 0 blks).cspst ↔
      blks * op.ibs % op.obs = 0) := by
  simp [cp_read_pt, hb, hp, write_inv, ReadOut.isOk, ReadOut.cspst,
    Nat.div_mul_le_self]
  exact eq_comm.trans (div_mul_eq_iff _ _ ho)

/-- C1 helper, tape short read: the write-side quantities cover exactly
the bytes read, and the invariant holds iff the bytes read form whole
input blocks (ddpt.c:2493-2507). -/
theorem c1_tape_short (op : OptsT) (csp : CpStateT) (res : Int)
    (h0 : 0 < res) (hlt : res < (csp.icbpt : Int) * (op.ibs : Int))
    (hi : 0 < op.ibs) (ho : 0 < op.obs) :
    (cp_read_tape op csp res).cspst.ocbpt * op.obs +
      (cp_read_tape op csp res).cspst.partial_write_bytes = res.toNat ∧
    (write_inv op (cp_read_tape op csp res).cspst ↔
      res.toNat % op.ibs = 0) := by
  have hneg : ¬ res < 0 := by omega
  by_cases hm : 0 < res.toNat % op.ibs <;>
    simp [cp_read_tape, hneg, hlt, hm, write_inv, ReadOut.cspst,
      apply_ite OptsT.ibs, apply_ite OptsT.obs] <;>
    refine ⟨floor_decomp _ _, ?_⟩ <;>
    rw [floor_decomp] <;>
    first
      | exact ⟨fun heq => absurd heq (succ_div_mul_ne _ _ hi (by omega)),
          fun hz => by omega⟩
      | exact div_mul_eq_iff _ _ hi

/-- C1 helper, fifo read ending at EOF: the gather loop collects `r0`
bytes, then a read returns 0; the write-side quantities cover exactly
the bytes gathered, and the invariant holds iff they form whole input
blocks (ddpt.c:2545-2556). -/
theorem c1_fifo_eof (op : OptsT) (csp : CpStateT) (r0 : Nat)
    (h0 : 0 < r0) (hlt : r0 < csp.icbpt * op.ibs)
    (hi : 0 < op.ibs) (ho : 0 < op.obs) :
    (cp_read_fifo op csp (fun i => if i = 0 then (r0 : Int) else 0)).cspst.ocbpt *
        op.obs +
      (cp_read_fifo op csp
        (fun i => if i = 0 then (r0 : Int) else 0)).cspst.partial_write_bytes =
      r0 ∧
    (write_inv op
        (cp_read_fifo op csp (fun i => if i = 0 then (r0 : Int) else 0)).cspst ↔
      r0 % op.ibs = 0) := by
  have h1 : 0 < csp.icbpt * op.ibs := by omega
  obtain ⟨m, hm⟩ := Nat.exists_eq_succ_of_ne_zero (by omega : csp.icbpt * op.ibs ≠ 0)
  have hstep : cp_read_fifo op csp (fun i => if i = 0 then (r0 : Int) else 0) =
      cp_read_fifo_loop op
        (if op.skip * (op.ibs : Int) ≠ csp.if_filepos then
          { csp with if_filepos := op.skip * (op.ibs : Int) } else csp)
        (csp.icbpt * op.ibs) (fun i => if i = 0 then (r0 : Int) else 0)
        (csp.icbpt * op.ibs + 1) 0 0 := by
    by_cases hof : op.skip * (op.ibs : Int) ≠ csp.if_filepos <;>
      simp [cp_read_fifo, hof]
  have hne : (r0 : Int) ≠ 0 := by exact_mod_cast h0.ne'
  have hc0 : ¬ ((r0 : Int) < 0) := not_lt.mpr (Int.natCast_nonneg r0)
  have hrm : r0 < m + 1 := by omega
  rw [hstep]
  rw [show csp.icbpt * op.ibs + 1 = (m + 1) + 1 from by omega]
  by_cases hmod : 0 < r0 % op.ibs <;>
    by_cases hof : op.skip * (op.ibs : Int) ≠ csp.if_filepos <;>
    simp [cp_read_fifo_loop, h1, hof, hlt, hmod, hne, hc0, hm, hrm,
      write_inv, ReadOut.cspst,
      apply_ite CpStateT.icbpt, apply_ite CpStateT.ocbpt,
      apply_ite CpStateT.partial_write_bytes] <;>
    refine ⟨floor_decomp _ _, ?_⟩ <;>
    rw [floor_decomp] <;>
    first
      | exact ⟨fun heq => absurd heq (succ_div_mul_ne _ _ hi (by omega)),
          fun hz => by omega⟩
      | exact div_mul_eq_iff _ _ hi

/-- C1's counterexample: for `c1_op` (`ibs=512`, `obs=1024`, `bpt=4`,
`count=1`) the planner rounds the final chunk's `ocbpt` up for a
zero-padded final write (ddpt.c:3303-3311), so the chunk enters the
write phase (the bulk read succeeds in full) with `icbpt = 1`,
`ocbpt = 1`, `partial_write_bytes = 0`, and
`icbpt * ibs = 512 ≠ 1024 = ocbpt * obs + partial_write_bytes`: the
claimed invariant fails for the final short chunk. -/
theorem c1_counterexample :
    (cp_read_block_reg c1_op (plan_chunk c1_op {} false) true
        ((512 : Nat) : Int) 0 (fun _ => 0) (fun _ => true)).isOk = true ∧
    (cp_read_block_reg c1_op (plan_chunk c1_op {} false) true
        ((512 : Nat) : Int) 0 (fun _ => 0) (fun _ => true)).cspst.icbpt = 1 ∧
    (cp_read_block_reg c1_op (plan_chunk c1_op {} false) true
        ((512 : Nat) : Int) 0 (fun _ => 0) (fun _ => true)).cspst.ocbpt = 1 ∧
    (cp_read_block_reg c1_op (plan_chunk c1_op {} false) true
        ((512 : Nat) : Int) 0 (fun _ => 0)
        (fun _ => true)).cspst.partial_write_bytes = 0 ∧
    ¬ write_inv c1_op
        (cp_read_block_reg c1_op (plan_chunk c1_op {} false) true
          ((512 : Nat) : Int) 0 (fun _ => 0) (fun _ => true)).cspst := by
  decide

/-- C1 as amended: the write-phase quantity invariant
`icbpt * ibs = ocbpt * obs + partial_write_bytes` holds for full planned
chunks and block-aligned cases, while the short and final cases instead
cover exactly the bytes read, with the invariant holding iff those bytes
are block-aligned.  (1) A full planned chunk satisfies the invariant
under the planner's constraint `(ibs*bpt) mod obs = 0` (ddpt.c:3300-3302).
(2) The planned final short chunk satisfies it iff its byte count is a
multiple of `obs`; otherwise `ocbpt` is rounded up for a zero-padded
final write (ddpt.c:3303-3311).  (3) A fully successful block/regular
bulk read leaves the planned `icbpt`, `ocbpt`, `partial_write_bytes`
unchanged (ddpt.c:2418-2421).  (4) A block/regular short read at EOF
(`coe` off) re-derives them from the bytes read, which `ocbpt*obs +
partial_write_bytes` covers exactly; the invariant holds iff the bytes
read form whole input blocks (ddpt.c:2371-2417).  (5) A pass-through
short read rounds `ocbpt` down, dropping the bytes beyond the last whole
output block, and the invariant holds iff the bytes read form whole
output blocks (ddpt.c:2158-2159).  (6) A tape short read is covered
exactly, with the invariant iff whole input blocks (ddpt.c:2493-2507).
(7) A fifo read ending at EOF covers the gathered bytes exactly, with
the invariant iff whole input blocks (ddpt.c:2545-2556). -/
theorem c1_amended_invariant :
    (∀ (op : OptsT) (csp0 : CpStateT) (cont : Bool),
        op.ibs * op.bpt_i % op.obs = 0 → csp0.partial_write_bytes = 0 →
        ((op.bpt_i : Int) ≤ op.dd_count ∨ cont = true) →
        write_inv op (plan_chunk op csp0 cont)) ∧
    (∀ (op : OptsT) (csp0 : CpStateT),
        0 < op.obs → csp0.partial_write_bytes = 0 →
        0 ≤ op.dd_count → op.dd_count < (op.bpt_i : Int) →
        (write_inv op (plan_chunk op csp0 false) ↔
          op.dd_count.toNat * op.ibs % op.obs = 0)) ∧
    (∀ (op : OptsT) (csp : CpStateT) (cr : Nat → Int) (cs : Nat → Bool),
        (cp_read_block_reg op csp true ((csp.icbpt * op.ibs_pi : Nat) : Int) 0
            cr cs).cspst.icbpt = csp.icbpt ∧
        (cp_read_block_reg op csp true ((csp.icbpt * op.ibs_pi : Nat) : Int) 0
            cr cs).cspst.ocbpt = csp.ocbpt ∧
        (cp_read_block_reg op csp true ((csp.icbpt * op.ibs_pi : Nat) : Int) 0
            cr cs).cspst.partial_write_bytes = csp.partial_write_bytes) ∧
    (∀ (op : OptsT) (csp : CpStateT) (res : Int) (cr : Nat → Int)
        (cs : Nat → Bool),
        op.iflag.coe = 0 → op.ibs_pi = op.ibs → 0 < op.ibs → 0 < op.obs →
        0 ≤ res → res < (csp.icbpt : Int) * (op.ibs_pi : Int) →
        (cp_read_block_reg op csp true res 0 cr cs).cspst.ocbpt * op.obs +
            (cp_read_block_reg op csp true res 0
              cr cs).cspst.partial_write_bytes = res.toNat ∧
          (write_inv op (cp_read_block_reg op csp true res 0 cr cs).cspst ↔
            res.toNat % op.ibs = 0)) ∧
    (∀ (op : OptsT) (csp : CpStateT) (blks : Nat),
        blks < csp.icbpt → csp.partial_write_bytes = 0 → 0 < op.obs →
        (cp_read_pt op csp 0 blks).cspst.icbpt = blks ∧
        (cp_read_pt op csp 0 blks).cspst.ocbpt * op.obs ≤ blks * op.ibs ∧
        (write_inv op (cp_read_pt op csp 0 blks).cspst ↔
          blks * op.ibs % op.obs = 0)) ∧
    (∀ (op : OptsT) (csp : CpStateT) (res : Int),
        0 < res → res < (csp.icbpt : Int) * (op.ibs : Int) → 0 < op.ibs →
        0 < op.obs →
        (cp_read_tape op csp res).cspst.ocbpt * op.obs +
            (cp_read_tape op csp res).cspst.partial_write_bytes = res.toNat ∧
          (write_inv op (cp_read_tape op csp res).cspst ↔
            res.toNat % op.ibs = 0)) ∧
    (∀ (op : OptsT) (csp : CpStateT) (r0 : Nat),
        0 < r0 → r0 < csp.icbpt * op.ibs → 0 < op.ibs → 0 < op.obs →
        (cp_read_fifo op csp
              (fun i => if i = 0 then (r0 : Int) else 0)).cspst.ocbpt *
            op.obs +
            (cp_read_fifo op csp
              (fun i => if i = 0 then (r0 : Int)
                else 0)).cspst.partial_write_bytes = r0 ∧
          (write_inv op
              (cp_read_fifo op csp
                (fun i => if i = 0 then (r0 : Int) else 0)).cspst ↔
            r0 % op.ibs = 0)) :=
  ⟨c1_full_chunk,
   c1_final_chunk,
   fun op csp cr cs => (c1_full_read op csp cr cs).2,
   fun op csp res cr cs hc hpi hi ho h0 hlt =>
     (c1_short_eof op csp res cr cs hc hpi hi ho h0 hlt).2,
   fun op csp blks hb hp ho => (c1_pt_short op csp blks hb hp ho).2,
   c1_tape_short,
   c1_fifo_eof⟩

/-- Witness for C1's amended invariant at concrete inputs: a full chunk
of four 512-byte blocks into 512-byte output blocks satisfies the
invariant; the final one-block chunk of `c1_op` does not (1×512 bytes is
not a multiple of `obs = 1024`); and a fifo gather of 700 bytes into a
four-block 512-byte chunk ends at EOF covering exactly 700 bytes, with
the invariant failing since `700 mod 512 ≠ 0`. -/
theorem c1_witness :
    write_inv
      { ibs := 512, obs := 512, ibs_pi := 512, obs_pi := 512,
        bpt_i := 4, dd_count := 8 }
      (plan_chunk
        { ibs := 512, obs := 512, ibs_pi := 512, obs_pi := 512,
          bpt_i := 4, dd_count := 8 } {} false) ∧
    ¬ write_inv c1_op (plan_chunk c1_op {} false) ∧
    ((cp_read_fifo c1_op { icbpt := 4 }
          (fun i => if i = 0 then ((700 : Nat) : Int) else 0)).cspst.ocbpt *
        c1_op.obs +
        (cp_read_fifo c1_op { icbpt := 4 }
          (fun i => if i = 0 then ((700 : Nat) : Int)
            else 0)).cspst.partial_write_bytes = 700 ∧
      (write_inv c1_op
          (cp_read_fifo c1_op { icbpt := 4 }
            (fun i => if i = 0 then ((700 : Nat) : Int) else 0)).cspst ↔
        (700 : Nat) % c1_op.ibs = 0)) :=
  ⟨c1_amended_invariant.1
      { ibs := 512, obs := 512, ibs_pi := 512, obs_pi := 512,
        bpt_i := 4, dd_count := 8 } {} false (by decide) (by decide)
      (by decide),
   fun hw => absurd
     ((c1_amended_invariant.2.1 c1_op {} (by decide) (by decide) (by decide)
        (by decide)).mp hw)
     (by decide),
   c1_amended_invariant.2.2.2.2.2.2 c1_op { icbpt := 4 } 700 (by decide)
     (by decide) (by decide) (by decide)⟩

end Ddpt
